import Mathlib

/-!
Verification development for the LoongArch LVZ (virtualization) core of the
QEMU-LVZ repository: bit-field primitives, the CPU state, the TLB helpers,
the VM-exit machinery, the exception return, and the CSR mediator, embedded
shallowly from the C sources, with theorems about the spec's claims.

Machine integers are modelled as `Nat`; a `uint64_t` value is a `Nat` that
the C code keeps below `2 ^ 64`.  `FIELD_EX64` / `FIELD_DP64` become
`fieldEx` / `fieldDp` with explicit shift and width arguments.
-/

namespace QemuLvz

/-- FIELD_EX64: extract the bit field of width `len` starting at bit `sh` of `v`. -/
def fieldEx (v sh len : Nat) : Nat := v / 2 ^ sh % 2 ^ len

/-- FIELD_DP64: deposit `x` into the bit field of width `len` starting at bit `sh`
of `v`, i.e. `(v & ~mask) | ((x << sh) & mask)` for `mask` covering the field. -/
def fieldDp (v sh len x : Nat) : Nat :=
  v % 2 ^ sh + x % 2 ^ len * 2 ^ sh + v / 2 ^ (sh + len) * 2 ^ (sh + len)

theorem fieldEx_lt (v sh len : Nat) : fieldEx v sh len < 2 ^ len :=
  Nat.mod_lt _ (Nat.pos_pow_of_pos _ (by omega))

theorem fieldDp_eq (v sh len x : Nat) :
    fieldDp v sh len x
      = v % 2 ^ sh + (x % 2 ^ len + v / 2 ^ (sh + len) * 2 ^ len) * 2 ^ sh := by
  unfold fieldDp
  rw [pow_add]
  ring

theorem fieldEx_fieldDp_self (v sh len x : Nat) :
    fieldEx (fieldDp v sh len x) sh len = x % 2 ^ len := by
  have hpos : 0 < 2 ^ sh := Nat.pos_pow_of_pos _ (by omega)
  rw [fieldDp_eq]
  unfold fieldEx
  rw [Nat.add_mul_div_right _ _ hpos,
      Nat.div_eq_of_lt (Nat.mod_lt _ hpos), Nat.zero_add,
      Nat.add_mul_mod_self_right]
  exact Nat.mod_mod_of_dvd x dvd_rfl

theorem fieldDp_mod (v sh len x : Nat) :
    fieldDp v sh len x % 2 ^ sh = v % 2 ^ sh := by
  rw [fieldDp_eq, Nat.add_mul_mod_self_right]
  exact Nat.mod_mod_of_dvd v dvd_rfl

theorem fieldDp_div (v sh len x : Nat) :
    fieldDp v sh len x / 2 ^ (sh + len) = v / 2 ^ (sh + len) := by
  have hlow : v % 2 ^ sh + x % 2 ^ len * 2 ^ sh < 2 ^ (sh + len) := by
    have h1 : v % 2 ^ sh < 2 ^ sh := Nat.mod_lt _ (Nat.pos_pow_of_pos _ (by omega))
    have h2 : x % 2 ^ len ≤ 2 ^ len - 1 := by
      have := Nat.mod_lt x (y := 2 ^ len) (Nat.pos_pow_of_pos _ (by omega))
      omega
    have h3 : x % 2 ^ len * 2 ^ sh ≤ (2 ^ len - 1) * 2 ^ sh :=
      Nat.mul_le_mul_right _ h2
    have hpos : 0 < 2 ^ len := Nat.pos_pow_of_pos _ (by omega)
    have : (2 ^ len - 1) * 2 ^ sh + 2 ^ sh = 2 ^ (sh + len) := by
      rw [pow_add]
      have : (2 ^ len - 1) * 2 ^ sh + 2 ^ sh = 2 ^ len * 2 ^ sh := by
        rw [Nat.sub_mul, Nat.one_mul]
        have : 2 ^ sh ≤ 2 ^ len * 2 ^ sh :=
          Nat.le_mul_of_pos_left _ hpos
        omega
      rw [this]; ring
    omega
  unfold fieldDp
  rw [Nat.add_mul_div_right _ _ (Nat.pos_pow_of_pos _ (by omega)),
      Nat.div_eq_of_lt hlow, Nat.zero_add]

theorem fieldEx_congr_mod {x y : Nat} (m sh len : Nat)
    (hmod : x % 2 ^ m = y % 2 ^ m) (hle : sh + len ≤ m) :
    fieldEx x sh len = fieldEx y sh len := by
  have key : ∀ z : Nat, fieldEx z sh len = z % 2 ^ m / 2 ^ sh % 2 ^ len := by
    intro z
    have h1 : (2 : Nat) ^ m = 2 ^ sh * 2 ^ (m - sh) := by
      rw [← pow_add]
      congr 1
      omega
    have h2 : z % 2 ^ m / 2 ^ sh % 2 ^ len = z / 2 ^ sh % 2 ^ len := by
      rw [h1, Nat.mod_mul_right_div_self,
          Nat.mod_mod_of_dvd _ (pow_dvd_pow 2 (by omega : len ≤ m - sh))]
    unfold fieldEx
    exact h2.symm
  rw [key x, key y, hmod]

theorem fieldEx_congr_div {x y : Nat} (m sh len : Nat)
    (hdiv : x / 2 ^ m = y / 2 ^ m) (hle : m ≤ sh) :
    fieldEx x sh len = fieldEx y sh len := by
  have key : ∀ z : Nat, z / 2 ^ sh = z / 2 ^ m / 2 ^ (sh - m) := by
    intro z
    rw [Nat.div_div_eq_div_mul, ← pow_add]
    congr 2
    omega
  unfold fieldEx
  rw [key x, key y, hdiv]

theorem fieldEx_fieldDp_below (v sh len x sh' len' : Nat)
    (h : sh' + len' ≤ sh) :
    fieldEx (fieldDp v sh len x) sh' len' = fieldEx v sh' len' :=
  fieldEx_congr_mod sh sh' len' (fieldDp_mod v sh len x) h

theorem fieldEx_fieldDp_above (v sh len x sh' len' : Nat)
    (h : sh + len ≤ sh') :
    fieldEx (fieldDp v sh len x) sh' len' = fieldEx v sh' len' :=
  fieldEx_congr_div (sh + len) sh' len' (fieldDp_div v sh len x) h

/-!
Bit layouts.

From `cpu.h` (in the sources):
- `TLB_MISC`: `E` bit 0, `ASID` bits 1-10, `VPPN` bits 13-47, `PS` bits 48-53,
  `GID` bits 54-61; `R_TLB_MISC_VPPN_SHIFT = 13`.
- `CSR_CRMD`: `PLV` bits 0-1, `IE` bit 2, `DA` bit 3, `PG` bit 4.
- `CPUCFG1.ARCH` bits 0-1 (`LA64 = 2`); `CPUCFG2.LVZ` bit 10.
- `LOONGARCH_STLB = 2048`, `LOONGARCH_MTLB = 64`, `LOONGARCH_TLB_MAX = 2112`.
- `EXCCODE_HVC = 22`, `EXCCODE_INE = 13`, `EXCCODE_IPE = 14`, `VMEXIT_*` codes.

Modelled from the spec (`cpu-csr.h` is not among the sources; the spec gives the
field lists, the positions are fixed here once and used consistently):
- `CSR_GSTAT`: `VM` bit 0, `PVM` bit 1, `GID` bits 16-23.
- `CSR_PRMD` / `CSR_TLBRPRMD`: `PPLV` bits 0-1, `PIE` bit 2.
- `CSR_ESTAT`: `IS` bits 0-12, `ECODE` bits 16-21.
- `CSR_TLBIDX`: `INDEX` bits 0-11, `PS` bits 24-29, `NE` bit 31.
- `CSR_ASID`: `ASID` bits 0-9 (mask `0x3ff`); `CSR_STLBPS`: `PS` bits 0-5.
- `CSR_TLBEHI`: `VPPN` bits 13-47 (64-bit) / 13-31 (32-bit), shift 13.
- `CSR_TLBRERA`: `ISTLBR` bit 0, `PC` bits 2-63.
- `CSR_TLBREHI`: `PS` bits 0-5, `VPPN` as for `TLBEHI`.
- `CSR_GCFG`: `SITP` bit 6, `SITO` bit 7, `TITP` bit 8, `TITO` bit 9 (these
  positions are also hard-coded in the guest-CSR helper source).
- `TLBENTRY`: `G` bit 6.
- `CSR_MISC`: `VA32` bits 0-3.
- `TARGET_VIRT_MASK` covers 48 virtual-address bits.
-/

abbrev LOONGARCH_STLB : Nat := 2048

abbrev LOONGARCH_TLB_MAX : Nat := 2112

abbrev EXCCODE_HVC : Nat := 22

abbrev EXCCODE_INE : Nat := 13

abbrev EXCCODE_IPE : Nat := 14

abbrev VMEXIT_MMIO : Nat := 1

abbrev VMEXIT_INT : Nat := 2

abbrev VMEXIT_TIMER : Nat := 3

abbrev VMEXIT_IOCSR : Nat := 4

abbrev VMEXIT_CSRR : Nat := 5

abbrev VMEXIT_CSRW : Nat := 6

abbrev VMEXIT_CSRX : Nat := 7

abbrev VMEXIT_HYPERCALL : Nat := 8

abbrev VMEXIT_CPUCFG : Nat := 9

abbrev VMEXIT_TLB : Nat := 10

abbrev VMEXIT_CACHE : Nat := 11

/-- One TLB entry: the three packed words of `struct LoongArchTLB`. -/
structure TLBEntry where
  tlb_misc : Nat := 0
  tlb_entry0 : Nat := 0
  tlb_entry1 : Nat := 0
deriving DecidableEq

/-- VM exit context, `struct VMExitContext`. -/
structure VMExitContext where
  fault_gpa : Nat := 0
  fault_gva : Nat := 0
  gid : Nat := 0
  exit_reason : Nat := 0
  access_type : Nat := 0
  is_tlb_refill : Bool := false
deriving DecidableEq

/-- The slice of `CPULoongArchState` read or written by the embedded helpers.
CSR words are `Nat` values (u64 in C); `cpucfg`, `CSR_SAVE`, `CSR_DMW` and the
TLB array are total functions on the index.  `cpu_index` and `timer_ticks`
stand for the external CPU-index and constant-timer collaborators, and
`timer_irq` for the timer IRQ line driven by `loongarch_cpu_set_irq`. -/
structure Env where
  pc : Nat := 0
  cpucfg : Nat → Nat := fun _ => 0
  CSR_CRMD : Nat := 0
  CSR_PRMD : Nat := 0
  CSR_EUEN : Nat := 0
  CSR_MISC : Nat := 0
  CSR_ECFG : Nat := 0
  CSR_ESTAT : Nat := 0
  CSR_ERA : Nat := 0
  CSR_BADV : Nat := 0
  CSR_BADI : Nat := 0
  CSR_EENTRY : Nat := 0
  CSR_TLBIDX : Nat := 0
  CSR_TLBEHI : Nat := 0
  CSR_TLBELO0 : Nat := 0
  CSR_TLBELO1 : Nat := 0
  CSR_ASID : Nat := 0
  CSR_PGDL : Nat := 0
  CSR_PGDH : Nat := 0
  CSR_PGD : Nat := 0
  CSR_PWCL : Nat := 0
  CSR_PWCH : Nat := 0
  CSR_STLBPS : Nat := 0
  CSR_RVACFG : Nat := 0
  CSR_CPUID : Nat := 0
  CSR_PRCFG1 : Nat := 0
  CSR_PRCFG2 : Nat := 0
  CSR_PRCFG3 : Nat := 0
  CSR_SAVE : Nat → Nat := fun _ => 0
  CSR_TID : Nat := 0
  CSR_TCFG : Nat := 0
  CSR_TVAL : Nat := 0
  CSR_CNTC : Nat := 0
  CSR_TICLR : Nat := 0
  CSR_LLBCTL : Nat := 0
  CSR_IMPCTL1 : Nat := 0
  CSR_IMPCTL2 : Nat := 0
  CSR_TLBRENTRY : Nat := 0
  CSR_TLBRBADV : Nat := 0
  CSR_TLBRERA : Nat := 0
  CSR_TLBRSAVE : Nat := 0
  CSR_TLBRELO0 : Nat := 0
  CSR_TLBRELO1 : Nat := 0
  CSR_TLBREHI : Nat := 0
  CSR_TLBRPRMD : Nat := 0
  CSR_DMW : Nat → Nat := fun _ => 0
  CSR_GSTAT : Nat := 0
  CSR_GCFG : Nat := 0
  CSR_GINTC : Nat := 0
  CSR_GCNTC : Nat := 0
  CSR_GTLBC : Nat := 0
  CSR_TRGP : Nat := 0
  GCSR_CRMD : Nat := 0
  GCSR_PRMD : Nat := 0
  GCSR_EUEN : Nat := 0
  GCSR_MISC : Nat := 0
  GCSR_ECFG : Nat := 0
  GCSR_ERA : Nat := 0
  GCSR_ESTAT : Nat := 0
  GCSR_BADV : Nat := 0
  GCSR_BADI : Nat := 0
  GCSR_EENTRY : Nat := 0
  GCSR_TLBIDX : Nat := 0
  GCSR_TLBEHI : Nat := 0
  GCSR_TLBELO0 : Nat := 0
  GCSR_TLBELO1 : Nat := 0
  GCSR_ASID : Nat := 0
  GCSR_PGDL : Nat := 0
  GCSR_PGDH : Nat := 0
  GCSR_PGD : Nat := 0
  GCSR_PWCL : Nat := 0
  GCSR_PWCH : Nat := 0
  GCSR_STLBPS : Nat := 0
  GCSR_RVACFG : Nat := 0
  GCSR_CPUID : Nat := 0
  GCSR_PRCFG1 : Nat := 0
  GCSR_PRCFG2 : Nat := 0
  GCSR_PRCFG3 : Nat := 0
  GCSR_SAVE : Nat → Nat := fun _ => 0
  GCSR_TID : Nat := 0
  GCSR_TCFG : Nat := 0
  GCSR_TVAL : Nat := 0
  GCSR_CNTC : Nat := 0
  GCSR_TICLR : Nat := 0
  GCSR_LLBCTL : Nat := 0
  GCSR_IMPCTL1 : Nat := 0
  GCSR_IMPCTL2 : Nat := 0
  GCSR_TLBRENTRY : Nat := 0
  GCSR_TLBRBADV : Nat := 0
  GCSR_TLBRERA : Nat := 0
  GCSR_TLBRSAVE : Nat := 0
  GCSR_TLBRELO0 : Nat := 0
  GCSR_TLBRELO1 : Nat := 0
  GCSR_TLBREHI : Nat := 0
  GCSR_TLBRPRMD : Nat := 0
  GCSR_MERRCTL : Nat := 0
  GCSR_MERRINFO1 : Nat := 0
  GCSR_MERRINFO2 : Nat := 0
  GCSR_MERRENTRY : Nat := 0
  GCSR_MERRERA : Nat := 0
  GCSR_MERRSAVE : Nat := 0
  GCSR_CTAG : Nat := 0
  GCSR_DMW : Nat → Nat := fun _ => 0
  GCSR_DBG : Nat := 0
  GCSR_DERA : Nat := 0
  GCSR_DSAVE : Nat := 0
  vm_exit_ctx : VMExitContext := {}
  lvz_enabled : Bool := false
  tlb : Nat → TLBEntry := fun _ => {}
  lladdr : Nat := 0
  cpu_index : Nat := 0
  timer_ticks : Nat := 0
  timer_irq : Bool := false

/-- Result of a helper that may raise an architectural exception
(`do_raise_exception` does not return in C). -/
structure HRes where
  env : Env
  exc : Option Nat

/-- Result of a value-returning helper that may raise an exception; `val` is
meaningful only when `exc = none`. -/
structure HResV where
  env : Env
  exc : Option Nat
  val : Nat

def do_raise_exception (env : Env) (code : Nat) : HRes := ⟨env, some code⟩

/-- has_lvz_capability: `FIELD_EX32(cpucfg[2], CPUCFG2, LVZ)`. -/
def has_lvz_capability (env : Env) : Bool := fieldEx (env.cpucfg 2) 10 1 != 0

/-- is_la64: `FIELD_EX32(cpucfg[1], CPUCFG1, ARCH) == CPUCFG1_ARCH_LA64`. -/
def is_la64 (env : Env) : Bool := fieldEx (env.cpucfg 1) 0 2 == 2

/-- is_guest_mode: LVZ capability and `GSTAT.VM` set. -/
def is_guest_mode (env : Env) : Bool :=
  has_lvz_capability env && fieldEx env.CSR_GSTAT 0 1 != 0

/-- get_guest_id: `GSTAT.GID`. -/
def get_guest_id (env : Env) : Nat := fieldEx env.CSR_GSTAT 16 8

def is_virtualization_mode_active (env : Env) : Bool :=
  has_lvz_capability env && env.lvz_enabled

def is_guest_execution_context (env : Env) : Bool :=
  is_virtualization_mode_active env && is_guest_mode env

def is_hypervisor_execution_context (env : Env) : Bool :=
  is_virtualization_mode_active env && !(is_guest_mode env)

/-- get_current_guest_id (tlb_helper.c): guest GID in guest mode, 0 in host mode. -/
def get_current_guest_id (env : Env) : Nat :=
  if is_guest_mode env then get_guest_id env else 0

/-- tlb_entry_matches_guest: without LVZ every entry matches; with LVZ the
entry's GID tag must equal the current effective GID. -/
def tlb_entry_matches_guest (env : Env) (t : TLBEntry) : Bool :=
  if !(has_lvz_capability env) then true
  else fieldEx t.tlb_misc 54 8 == get_current_guest_id env

/-- is_va32 (cpu.h): 32-bit virtual addressing, from `CPUCFG1.ARCH` and
`CSR_MISC.VA32` at the current PLV. -/
def is_va32 (env : Env) : Bool :=
  let plv := fieldEx env.CSR_CRMD 0 2
  if 1 ≤ plv && fieldEx (fieldEx env.CSR_MISC 0 4) plv 1 != 0 then true
  else !(is_la64 env)

/-- set_pc (cpu.h): truncate to 32 bits under VA32. -/
def set_pc (env : Env) (value : Nat) : Env :=
  if is_va32 env then { env with pc := value % 2 ^ 32 }
  else { env with pc := value }

def get_effective_csr_asid (env : Env) : Nat :=
  if is_guest_mode env then env.GCSR_ASID else env.CSR_ASID

def get_effective_csr_tlbehi (env : Env) : Nat :=
  if is_guest_mode env then env.GCSR_TLBEHI else env.CSR_TLBEHI

def get_effective_csr_tlbelo0 (env : Env) : Nat :=
  if is_guest_mode env then env.GCSR_TLBELO0 else env.CSR_TLBELO0

def get_effective_csr_tlbelo1 (env : Env) : Nat :=
  if is_guest_mode env then env.GCSR_TLBELO1 else env.CSR_TLBELO1

def get_effective_csr_tlbidx (env : Env) : Nat :=
  if is_guest_mode env then env.GCSR_TLBIDX else env.CSR_TLBIDX

def set_effective_csr_tlbidx (env : Env) (value : Nat) : Env :=
  if is_guest_mode env then { env with GCSR_TLBIDX := value }
  else { env with CSR_TLBIDX := value }

def set_effective_csr_tlbehi (env : Env) (value : Nat) : Env :=
  if is_guest_mode env then { env with GCSR_TLBEHI := value }
  else { env with CSR_TLBEHI := value }

def set_effective_csr_tlbelo0 (env : Env) (value : Nat) : Env :=
  if is_guest_mode env then { env with GCSR_TLBELO0 := value }
  else { env with CSR_TLBELO0 := value }

def set_effective_csr_tlbelo1 (env : Env) (value : Nat) : Env :=
  if is_guest_mode env then { env with GCSR_TLBELO1 := value }
  else { env with CSR_TLBELO1 := value }

def set_effective_csr_asid (env : Env) (value : Nat) : Env :=
  if is_guest_mode env then { env with GCSR_ASID := value }
  else { env with CSR_ASID := value }

/-- Write TLB entry `i` (the C `env->tlb[i] = e` update). -/
def setTlbEntry (env : Env) (i : Nat) (e : TLBEntry) : Env :=
  { env with tlb := fun j => if j = i then e else env.tlb j }

/-- invalidate_tlb_entry only flushes the host-side translation cache
(`tlb_flush_range_by_mmuidx`), which is external to the modelled state; it
writes none of the modelled fields. -/
def invalidate_tlb_entry (env : Env) (index : Nat) : Env := env

/-- fill_tlb_entry: build the entry at `index` from the TLB-refill CSRs when
`TLBRERA.ISTLBR` is set, otherwise from the effective window CSRs, stamping
`E = 1`, the effective ASID, and (with LVZ) the current GID. -/
def fill_tlb_entry (env : Env) (index : Nat) : Env :=
  let t := env.tlb index
  let istlbr := fieldEx env.CSR_TLBRERA 0 1 != 0
  let csr_ps :=
    if istlbr then fieldEx env.CSR_TLBREHI 0 6
    else fieldEx (get_effective_csr_tlbidx env) 24 6
  let csr_vppn :=
    if istlbr then
      (if is_la64 env then fieldEx env.CSR_TLBREHI 13 35
       else fieldEx env.CSR_TLBREHI 13 19)
    else
      (if is_la64 env then fieldEx (get_effective_csr_tlbehi env) 13 35
       else fieldEx (get_effective_csr_tlbehi env) 13 19)
  let lo0 := if istlbr then env.CSR_TLBRELO0 else get_effective_csr_tlbelo0 env
  let lo1 := if istlbr then env.CSR_TLBRELO1 else get_effective_csr_tlbelo1 env
  let m := t.tlb_misc
  let m := if LOONGARCH_STLB ≤ index then fieldDp m 48 6 csr_ps else m
  let m := fieldDp m 13 35 csr_vppn
  let m := fieldDp m 0 1 1
  let csr_asid := fieldEx (get_effective_csr_asid env) 0 10
  let m := fieldDp m 1 10 csr_asid
  let m :=
    if has_lvz_capability env then fieldDp m 54 8 (get_current_guest_id env)
    else m
  setTlbEntry env index { tlb_misc := m, tlb_entry0 := lo0, tlb_entry1 := lo1 }

/-- get_random_tlb, with the guest-random collaborator's draw made explicit as
the argument `rand`: returns `rand % (high - low + 1) + low`. -/
def get_random_tlb (low high rand : Nat) : Nat := rand % (high - low + 1) + low

/-- loongarch_tlb_search_guest: search the STLB set, then the MTLB, skipping
entries of another guest; returns the matching index. -/
def loongarch_tlb_search_guest (env : Env) (vaddr : Nat) : Option Nat :=
  let csr_asid := fieldEx (get_effective_csr_asid env) 0 10
  let stlb_ps := fieldEx env.CSR_STLBPS 0 6
  let vpn := vaddr % 2 ^ 48 / 2 ^ (stlb_ps + 1)
  let stlb_idx := vpn % 256
  let compare_shift := stlb_ps + 1 - 13
  let stlbHit := (List.range 8).find? fun i =>
    let t := env.tlb (i * 256 + stlb_idx)
    fieldEx t.tlb_misc 0 1 != 0 &&
      (!(has_lvz_capability env) ||
        fieldEx t.tlb_misc 54 8 == get_current_guest_id env) &&
      (fieldEx t.tlb_entry0 6 1 == 1 || fieldEx t.tlb_misc 1 10 == csr_asid) &&
      vpn == fieldEx t.tlb_misc 13 35 / 2 ^ compare_shift
  match stlbHit with
  | some i => some (i * 256 + stlb_idx)
  | none =>
    let mtlbHit := (List.range 64).find? fun k =>
      let t := env.tlb (LOONGARCH_STLB + k)
      let tlb_ps := fieldEx t.tlb_misc 48 6
      fieldEx t.tlb_misc 0 1 != 0 &&
        (!(has_lvz_capability env) ||
          fieldEx t.tlb_misc 54 8 == get_current_guest_id env) &&
        (fieldEx t.tlb_entry0 6 1 == 1 || fieldEx t.tlb_misc 1 10 == csr_asid) &&
        vaddr % 2 ^ 48 / 2 ^ (tlb_ps + 1)
          == fieldEx t.tlb_misc 13 35 / 2 ^ (tlb_ps + 1 - 13)
    match mtlbHit with
    | some k => some (LOONGARCH_STLB + k)
    | none => none

/-- helper_tlbsrch: search at the refill or effective TLBEHI; on hit store the
index and clear `NE`, on miss set `NE`. -/
def helper_tlbsrch (env : Env) : Env :=
  let search_ehi :=
    if fieldEx env.CSR_TLBRERA 0 1 != 0 then env.CSR_TLBREHI
    else get_effective_csr_tlbehi env
  match loongarch_tlb_search_guest env search_ehi with
  | some index =>
    let env := set_effective_csr_tlbidx env
      (fieldDp (get_effective_csr_tlbidx env) 0 12 index)
    set_effective_csr_tlbidx env
      (fieldDp (get_effective_csr_tlbidx env) 31 1 0)
  | none =>
    set_effective_csr_tlbidx env
      (fieldDp (get_effective_csr_tlbidx env) 31 1 1)

/-- helper_tlbrd: read the entry at the effective `TLBIDX.INDEX`; on GID
mismatch or a disabled entry clear the output CSRs and set `NE`. -/
def helper_tlbrd (env : Env) : Env :=
  let index := fieldEx (get_effective_csr_tlbidx env) 0 12
  let t := env.tlb index
  if !(tlb_entry_matches_guest env t) then
    let env := set_effective_csr_tlbidx env
      (fieldDp (get_effective_csr_tlbidx env) 31 1 1)
    let env := set_effective_csr_asid env
      (fieldDp (get_effective_csr_asid env) 0 10 0)
    let env := set_effective_csr_tlbehi env 0
    let env := set_effective_csr_tlbelo0 env 0
    let env := set_effective_csr_tlbelo1 env 0
    set_effective_csr_tlbidx env
      (fieldDp (get_effective_csr_tlbidx env) 24 6 0)
  else
    let tlb_ps :=
      if LOONGARCH_STLB ≤ index then fieldEx t.tlb_misc 48 6
      else fieldEx env.CSR_STLBPS 0 6
    if fieldEx t.tlb_misc 0 1 == 0 then
      let env := set_effective_csr_tlbidx env
        (fieldDp (get_effective_csr_tlbidx env) 31 1 1)
      let env := set_effective_csr_asid env
        (fieldDp (get_effective_csr_asid env) 0 10 0)
      let env := set_effective_csr_tlbehi env 0
      let env := set_effective_csr_tlbelo0 env 0
      let env := set_effective_csr_tlbelo1 env 0
      set_effective_csr_tlbidx env
        (fieldDp (get_effective_csr_tlbidx env) 24 6 0)
    else
      let env := set_effective_csr_tlbidx env
        (fieldDp (get_effective_csr_tlbidx env) 31 1 0)
      let env := set_effective_csr_tlbidx env
        (fieldDp (get_effective_csr_tlbidx env) 24 6 (tlb_ps % 64))
      let env := set_effective_csr_tlbehi env (fieldEx t.tlb_misc 13 35 * 2 ^ 13)
      let env := set_effective_csr_tlbelo0 env t.tlb_entry0
      set_effective_csr_tlbelo1 env t.tlb_entry1

/-- helper_tlbwr: invalidate the host cache for an in-bounds index, then clear
`E` if `NE` is set, otherwise fill the entry; the `NE`/fill step itself has no
bound check. -/
def helper_tlbwr (env : Env) : Env :=
  let index := fieldEx (get_effective_csr_tlbidx env) 0 12
  let env :=
    if index < LOONGARCH_TLB_MAX then invalidate_tlb_entry env index else env
  if fieldEx (get_effective_csr_tlbidx env) 31 1 != 0 then
    let t := env.tlb index
    setTlbEntry env index { t with tlb_misc := fieldDp t.tlb_misc 0 1 0 }
  else
    fill_tlb_entry env index

/-- Index chosen by helper_tlbfill: an STLB slot from the VPN and a random way
when the page size matches `STLBPS`, otherwise a random MTLB slot. -/
def tlbfill_index (env : Env) (rand : Nat) : Nat :=
  let istlbr := fieldEx env.CSR_TLBRERA 0 1 != 0
  let entryhi := if istlbr then env.CSR_TLBREHI else get_effective_csr_tlbehi env
  let pagesize :=
    if istlbr then fieldEx env.CSR_TLBREHI 0 6
    else fieldEx (get_effective_csr_tlbidx env) 24 6
  let stlb_ps := fieldEx env.CSR_STLBPS 0 6
  if pagesize == stlb_ps then
    let address := entryhi / 2 ^ 13 * 2 ^ 13
    let way := get_random_tlb 0 7 rand
    let stlb_idx := address / 2 ^ (stlb_ps + 1) % 256
    way * 256 + stlb_idx
  else
    get_random_tlb LOONGARCH_STLB (LOONGARCH_TLB_MAX - 1) rand

/-- helper_tlbfill, with the guest-random draw `rand` explicit. -/
def helper_tlbfill (env : Env) (rand : Nat) : Env :=
  let index := tlbfill_index env rand
  let env := invalidate_tlb_entry env index
  fill_tlb_entry env index

/-- One iteration of the helper_tlbclr loop body at absolute index `j`. -/
def tlbclr_step (env : Env) (csr_asid : Nat) (t : Nat → TLBEntry) (j : Nat) :
    Nat → TLBEntry :=
  let e := t j
  if !(tlb_entry_matches_guest env e) then t
  else if fieldEx e.tlb_entry0 6 1 == 0 && fieldEx e.tlb_misc 1 10 == csr_asid then
    fun k => if k = j then { e with tlb_misc := fieldDp e.tlb_misc 0 1 0 } else t k
  else t

/-- helper_tlbclr: clear non-global entries of the current guest with the
effective ASID, over the selected STLB set or the whole MTLB. -/
def helper_tlbclr (env : Env) : Env :=
  let csr_asid := fieldEx (get_effective_csr_asid env) 0 10
  let index := fieldEx (get_effective_csr_tlbidx env) 0 12
  if index < LOONGARCH_STLB then
    { env with tlb :=
        (List.range 8).foldl (fun t i => tlbclr_step env csr_asid t (i * 256 + index % 256)) env.tlb }
  else if index < LOONGARCH_TLB_MAX then
    { env with tlb :=
        (List.range 64).foldl (fun t i => tlbclr_step env csr_asid t (LOONGARCH_STLB + i)) env.tlb }
  else env

/-- One iteration of the helper_tlbflush loop body at absolute index `j`. -/
def tlbflush_step (env : Env) (t : Nat → TLBEntry) (j : Nat) : Nat → TLBEntry :=
  let e := t j
  if tlb_entry_matches_guest env e then
    fun k => if k = j then { e with tlb_misc := fieldDp e.tlb_misc 0 1 0 } else t k
  else t

/-- helper_tlbflush: disable the current guest's entries in the selected STLB
set or the whole MTLB. -/
def helper_tlbflush (env : Env) : Env :=
  let index := fieldEx (get_effective_csr_tlbidx env) 0 12
  if index < LOONGARCH_STLB then
    { env with tlb :=
        (List.range 8).foldl (fun t i => tlbflush_step env t (i * 256 + index % 256)) env.tlb }
  else if index < LOONGARCH_TLB_MAX then
    { env with tlb :=
        (List.range 64).foldl (fun t i => tlbflush_step env t (LOONGARCH_STLB + i)) env.tlb }
  else env

/-- helper_invtlb_all: disable every entry of the current guest. -/
def helper_invtlb_all (env : Env) : Env :=
  { env with tlb :=
      (List.range LOONGARCH_TLB_MAX).foldl (fun t j => tlbflush_step env t j) env.tlb }

/-- One iteration of helper_invtlb_all_g at index `j`. -/
def invtlb_all_g_step (env : Env) (g : Nat) (t : Nat → TLBEntry) (j : Nat) :
    Nat → TLBEntry :=
  let e := t j
  if fieldEx e.tlb_entry0 6 1 == g && tlb_entry_matches_guest env e then
    fun k => if k = j then { e with tlb_misc := fieldDp e.tlb_misc 0 1 0 } else t k
  else t

/-- helper_invtlb_all_g: disable the current guest's entries whose G bit is `g`. -/
def helper_invtlb_all_g (env : Env) (g : Nat) : Env :=
  { env with tlb :=
      (List.range LOONGARCH_TLB_MAX).foldl (invtlb_all_g_step env g) env.tlb }

/-- One iteration of helper_invtlb_all_asid at index `j`. -/
def invtlb_all_asid_step (env : Env) (asid : Nat) (t : Nat → TLBEntry) (j : Nat) :
    Nat → TLBEntry :=
  let e := t j
  if fieldEx e.tlb_entry0 6 1 == 0 && fieldEx e.tlb_misc 1 10 == asid &&
      tlb_entry_matches_guest env e then
    fun k => if k = j then { e with tlb_misc := fieldDp e.tlb_misc 0 1 0 } else t k
  else t

/-- helper_invtlb_all_asid: disable the current guest's non-global entries with
the given ASID (`info & 0x3ff`). -/
def helper_invtlb_all_asid (env : Env) (info : Nat) : Env :=
  { env with tlb :=
      (List.range LOONGARCH_TLB_MAX).foldl (invtlb_all_asid_step env (info % 1024)) env.tlb }

/-- One iteration of helper_invtlb_page_asid at index `j`. -/
def invtlb_page_asid_step (env : Env) (asid addr : Nat) (t : Nat → TLBEntry)
    (j : Nat) : Nat → TLBEntry :=
  let e := t j
  if !(tlb_entry_matches_guest env e) then t
  else
    let tlb_ps :=
      if LOONGARCH_STLB ≤ j then fieldEx e.tlb_misc 48 6
      else fieldEx env.CSR_STLBPS 0 6
    let vpn := addr % 2 ^ 48 / 2 ^ (tlb_ps + 1)
    if fieldEx e.tlb_entry0 6 1 == 0 && fieldEx e.tlb_misc 1 10 == asid &&
        vpn == fieldEx e.tlb_misc 13 35 / 2 ^ (tlb_ps + 1 - 13) then
      fun k => if k = j then { e with tlb_misc := fieldDp e.tlb_misc 0 1 0 } else t k
    else t

/-- helper_invtlb_page_asid: disable the current guest's non-global entries
with the given ASID covering `addr`. -/
def helper_invtlb_page_asid (env : Env) (info addr : Nat) : Env :=
  { env with tlb :=
      (List.range LOONGARCH_TLB_MAX).foldl (invtlb_page_asid_step env (info % 1024) addr) env.tlb }

/-- One iteration of helper_invtlb_page_asid_or_g at index `j`. -/
def invtlb_page_asid_or_g_step (env : Env) (asid addr : Nat) (t : Nat → TLBEntry)
    (j : Nat) : Nat → TLBEntry :=
  let e := t j
  if !(tlb_entry_matches_guest env e) then t
  else
    let tlb_ps :=
      if LOONGARCH_STLB ≤ j then fieldEx e.tlb_misc 48 6
      else fieldEx env.CSR_STLBPS 0 6
    let vpn := addr % 2 ^ 48 / 2 ^ (tlb_ps + 1)
    if (fieldEx e.tlb_entry0 6 1 != 0 || fieldEx e.tlb_misc 1 10 == asid) &&
        vpn == fieldEx e.tlb_misc 13 35 / 2 ^ (tlb_ps + 1 - 13) then
      fun k => if k = j then { e with tlb_misc := fieldDp e.tlb_misc 0 1 0 } else t k
    else t

/-- helper_invtlb_page_asid_or_g: disable the current guest's entries covering
`addr` that are global or carry the given ASID. -/
def helper_invtlb_page_asid_or_g (env : Env) (info addr : Nat) : Env :=
  { env with tlb :=
      (List.range LOONGARCH_TLB_MAX).foldl (invtlb_page_asid_or_g_step env (info % 1024) addr) env.tlb }

/-- trigger_vm_exit (LVZ instruction helpers): clears `GSTAT.VM` and raises
the hypervisor exception; the `reason` and `info` arguments are not stored
anywhere (the C comment defers that to "a full implementation"). -/
def trigger_vm_exit (env : Env) (reason info : Nat) : HRes :=
  let env := { env with CSR_GSTAT := fieldDp env.CSR_GSTAT 0 1 0 }
  do_raise_exception env EXCCODE_HVC

/-- helper_vm_exit_cpu: the VM-Exit Controller.  Outside guest execution
context it only logs; otherwise it fills `vm_exit_ctx`, stashes `VM` into
`PVM`, clears `VM`, builds guest PRMD from CRMD, saves PC into `GCSR_ERA`,
writes `EXCCODE_HVC` into `GCSR_ESTAT.ECODE`, drops host `CRMD.PLV`/`IE` to 0
and raises `EXCCODE_HVC`. -/
def helper_vm_exit_cpu (env : Env) (exit_reason : Nat) : HRes :=
  if !(is_guest_execution_context env) then ⟨env, none⟩
  else
    let env := { env with vm_exit_ctx :=
      { exit_reason := exit_reason
        fault_gva := env.pc
        fault_gpa := 0
        gid := get_guest_id env
        access_type := 0
        is_tlb_refill := false } }
    let vm_bit := fieldEx env.CSR_GSTAT 0 1
    let env := { env with CSR_GSTAT := fieldDp env.CSR_GSTAT 1 1 vm_bit }
    let env := { env with CSR_GSTAT := fieldDp env.CSR_GSTAT 0 1 0 }
    let crmd := env.CSR_CRMD
    let guest_prmd := env.GCSR_PRMD
    let guest_prmd := fieldDp guest_prmd 0 2 (fieldEx crmd 0 2)
    let guest_prmd := fieldDp guest_prmd 2 1 (fieldEx crmd 2 1)
    let env := { env with GCSR_PRMD := guest_prmd }
    let env := { env with GCSR_ERA := env.pc }
    let env := { env with GCSR_ESTAT := fieldDp env.GCSR_ESTAT 16 6 EXCCODE_HVC }
    let env := { env with CSR_CRMD := fieldDp env.CSR_CRMD 0 2 0 }
    let env := { env with CSR_CRMD := fieldDp env.CSR_CRMD 2 1 0 }
    do_raise_exception env EXCCODE_HVC

/-- helper_hvcl: a hypercall triggers a VM exit in guest mode and is an
illegal instruction (`EXCCODE_INE`) elsewhere or without LVZ. -/
def helper_hvcl (env : Env) (code : Nat) : HRes :=
  if !(is_guest_mode env) then do_raise_exception env EXCCODE_INE
  else if !(has_lvz_capability env) then do_raise_exception env EXCCODE_INE
  else trigger_vm_exit env VMEXIT_HYPERCALL code

/-- helper_ertn: exception return.  PPLV/PIE and the return address come from
the guest bank in guest execution context, the host bank otherwise, and from
the TLB-refill registers when `TLBRERA.ISTLBR` is set; afterwards CRMD.PLV/IE
are restored and, in guest context, `GSTAT.VM` is restored from `PVM`. -/
def helper_ertn (env : Env) : Env :=
  let is_guest := is_guest_execution_context env
  let istlbr := fieldEx env.CSR_TLBRERA 0 1 != 0
  let csr_pplv :=
    if istlbr then
      (if is_guest then fieldEx env.GCSR_TLBRPRMD 0 2
       else fieldEx env.CSR_TLBRPRMD 0 2)
    else
      (if is_guest then fieldEx env.GCSR_PRMD 0 2 else fieldEx env.CSR_PRMD 0 2)
  let csr_pie :=
    if istlbr then
      (if is_guest then fieldEx env.GCSR_TLBRPRMD 2 1
       else fieldEx env.CSR_TLBRPRMD 2 1)
    else
      (if is_guest then fieldEx env.GCSR_PRMD 2 1 else fieldEx env.CSR_PRMD 2 1)
  let return_address :=
    if istlbr then
      (if is_guest then fieldEx env.GCSR_TLBRERA 2 62 * 4
       else fieldEx env.CSR_TLBRERA 2 62 * 4)
    else
      (if is_guest then env.GCSR_ERA else env.CSR_ERA)
  let env :=
    if istlbr then
      let env := { env with CSR_TLBRERA := fieldDp env.CSR_TLBRERA 0 1 0 }
      let env := { env with CSR_CRMD := fieldDp env.CSR_CRMD 3 1 0 }
      let env := { env with CSR_CRMD := fieldDp env.CSR_CRMD 4 1 1 }
      set_pc env return_address
    else
      set_pc env return_address
  let env := { env with CSR_CRMD := fieldDp env.CSR_CRMD 0 2 csr_pplv }
  let env := { env with CSR_CRMD := fieldDp env.CSR_CRMD 2 1 csr_pie }
  let env :=
    if is_guest then
      let pvm := fieldEx env.CSR_GSTAT 1 1
      { env with CSR_GSTAT := fieldDp env.CSR_GSTAT 0 1 pvm }
    else env
  { env with lladdr := 1 }

/-!
CSR numbering.  `cpu-csr.h` is not among the sources; the numbers are the
architectural `LOONGARCH_CSR_*` indices (modelled from the spec's register
list); the claims depend only on their being distinct.
-/

abbrev LOONGARCH_CSR_CRMD : Nat := 0x0

abbrev LOONGARCH_CSR_PRMD : Nat := 0x1

abbrev LOONGARCH_CSR_EUEN : Nat := 0x2

abbrev LOONGARCH_CSR_MISC : Nat := 0x3

abbrev LOONGARCH_CSR_ECFG : Nat := 0x4

abbrev LOONGARCH_CSR_ESTAT : Nat := 0x5

abbrev LOONGARCH_CSR_ERA : Nat := 0x6

abbrev LOONGARCH_CSR_BADV : Nat := 0x7

abbrev LOONGARCH_CSR_BADI : Nat := 0x8

abbrev LOONGARCH_CSR_EENTRY : Nat := 0xc

abbrev LOONGARCH_CSR_TLBIDX : Nat := 0x10

abbrev LOONGARCH_CSR_TLBEHI : Nat := 0x11

abbrev LOONGARCH_CSR_TLBELO0 : Nat := 0x12

abbrev LOONGARCH_CSR_TLBELO1 : Nat := 0x13

abbrev LOONGARCH_CSR_ASID : Nat := 0x18

abbrev LOONGARCH_CSR_PGDL : Nat := 0x19

abbrev LOONGARCH_CSR_PGDH : Nat := 0x1a

abbrev LOONGARCH_CSR_PGD : Nat := 0x1b

abbrev LOONGARCH_CSR_PWCL : Nat := 0x1c

abbrev LOONGARCH_CSR_PWCH : Nat := 0x1d

abbrev LOONGARCH_CSR_STLBPS : Nat := 0x1e

abbrev LOONGARCH_CSR_RVACFG : Nat := 0x1f

abbrev LOONGARCH_CSR_CPUID : Nat := 0x20

abbrev LOONGARCH_CSR_PRCFG1 : Nat := 0x21

abbrev LOONGARCH_CSR_PRCFG2 : Nat := 0x22

abbrev LOONGARCH_CSR_PRCFG3 : Nat := 0x23

/-- LOONGARCH_CSR_SAVE(n) = 0x30 + n. -/
abbrev LOONGARCH_CSR_SAVE_BASE : Nat := 0x30

abbrev LOONGARCH_CSR_TID : Nat := 0x40

abbrev LOONGARCH_CSR_TCFG : Nat := 0x41

abbrev LOONGARCH_CSR_TVAL : Nat := 0x42

abbrev LOONGARCH_CSR_CNTC : Nat := 0x43

abbrev LOONGARCH_CSR_TICLR : Nat := 0x44

abbrev LOONGARCH_CSR_LLBCTL : Nat := 0x60

abbrev LOONGARCH_CSR_IMPCTL1 : Nat := 0x80

abbrev LOONGARCH_CSR_IMPCTL2 : Nat := 0x81

abbrev LOONGARCH_CSR_TLBRENTRY : Nat := 0x88

abbrev LOONGARCH_CSR_TLBRBADV : Nat := 0x89

abbrev LOONGARCH_CSR_TLBRERA : Nat := 0x8a

abbrev LOONGARCH_CSR_TLBRSAVE : Nat := 0x8b

abbrev LOONGARCH_CSR_TLBRELO0 : Nat := 0x8c

abbrev LOONGARCH_CSR_TLBRELO1 : Nat := 0x8d

abbrev LOONGARCH_CSR_TLBREHI : Nat := 0x8e

abbrev LOONGARCH_CSR_TLBRPRMD : Nat := 0x8f

abbrev LOONGARCH_CSR_MERRCTL : Nat := 0x90

abbrev LOONGARCH_CSR_MERRINFO1 : Nat := 0x91

abbrev LOONGARCH_CSR_MERRINFO2 : Nat := 0x92

abbrev LOONGARCH_CSR_MERRENTRY : Nat := 0x93

abbrev LOONGARCH_CSR_MERRERA : Nat := 0x94

abbrev LOONGARCH_CSR_MERRSAVE : Nat := 0x95

abbrev LOONGARCH_CSR_CTAG : Nat := 0x98

/-- LOONGARCH_CSR_DMW(n) = 0x180 + n. -/
abbrev LOONGARCH_CSR_DMW_BASE : Nat := 0x180

abbrev LOONGARCH_CSR_DBG : Nat := 0x500

abbrev LOONGARCH_CSR_DERA : Nat := 0x501

abbrev LOONGARCH_CSR_DSAVE : Nat := 0x502

/-- check_csr_access_permission: the guest access-policy switch; host mode
allows everything, guest mode consults the per-CSR policy and `GCFG` gates. -/
def check_csr_access_permission (env : Env) (csr : Nat) (is_write : Bool) :
    Bool :=
  if !(is_guest_mode env) then true
  else if !(has_lvz_capability env) then false
  else if csr == LOONGARCH_CSR_CRMD || csr == LOONGARCH_CSR_PRMD ||
      csr == LOONGARCH_CSR_EUEN || csr == LOONGARCH_CSR_MISC ||
      csr == LOONGARCH_CSR_ECFG || csr == LOONGARCH_CSR_ERA ||
      csr == LOONGARCH_CSR_BADV || csr == LOONGARCH_CSR_BADI ||
      csr == LOONGARCH_CSR_EENTRY then true
  else if csr == LOONGARCH_CSR_TLBIDX || csr == LOONGARCH_CSR_TLBEHI ||
      csr == LOONGARCH_CSR_TLBELO0 || csr == LOONGARCH_CSR_TLBELO1 ||
      csr == LOONGARCH_CSR_ASID || csr == LOONGARCH_CSR_PGDL ||
      csr == LOONGARCH_CSR_PGDH || csr == LOONGARCH_CSR_PGD ||
      csr == LOONGARCH_CSR_PWCL || csr == LOONGARCH_CSR_PWCH ||
      csr == LOONGARCH_CSR_STLBPS || csr == LOONGARCH_CSR_RVACFG then true
  else if csr == LOONGARCH_CSR_TID || csr == LOONGARCH_CSR_TCFG ||
      csr == LOONGARCH_CSR_TVAL || csr == LOONGARCH_CSR_CNTC then
    (if is_write then fieldEx env.CSR_GCFG 9 1 != 0
     else fieldEx env.CSR_GCFG 8 1 != 0)
  else if csr == LOONGARCH_CSR_TICLR then false
  else if csr == LOONGARCH_CSR_ESTAT then
    (if is_write then fieldEx env.CSR_GCFG 7 1 != 0
     else fieldEx env.CSR_GCFG 6 1 != 0)
  else if csr == LOONGARCH_CSR_CPUID || csr == LOONGARCH_CSR_PRCFG1 ||
      csr == LOONGARCH_CSR_PRCFG2 || csr == LOONGARCH_CSR_PRCFG3 then
    !is_write
  else if LOONGARCH_CSR_SAVE_BASE ≤ csr &&
      csr ≤ LOONGARCH_CSR_SAVE_BASE + 15 then true
  else if csr == LOONGARCH_CSR_LLBCTL then true
  else if csr == LOONGARCH_CSR_TLBRENTRY || csr == LOONGARCH_CSR_TLBRBADV ||
      csr == LOONGARCH_CSR_TLBRERA || csr == LOONGARCH_CSR_TLBRSAVE ||
      csr == LOONGARCH_CSR_TLBRELO0 || csr == LOONGARCH_CSR_TLBRELO1 ||
      csr == LOONGARCH_CSR_TLBREHI || csr == LOONGARCH_CSR_TLBRPRMD ||
      csr == LOONGARCH_CSR_MERRCTL || csr == LOONGARCH_CSR_MERRINFO1 ||
      csr == LOONGARCH_CSR_MERRINFO2 || csr == LOONGARCH_CSR_MERRENTRY ||
      csr == LOONGARCH_CSR_MERRERA || csr == LOONGARCH_CSR_MERRSAVE ||
      csr == LOONGARCH_CSR_CTAG then false
  else if LOONGARCH_CSR_DMW_BASE ≤ csr &&
      csr ≤ LOONGARCH_CSR_DMW_BASE + 3 then true
  else if csr == LOONGARCH_CSR_IMPCTL1 || csr == LOONGARCH_CSR_IMPCTL2 then
    false
  else if csr == LOONGARCH_CSR_DBG || csr == LOONGARCH_CSR_DERA ||
      csr == LOONGARCH_CSR_DSAVE then false
  else false

/-- trigger_csr_vm_exit: the CSR trap path.  The csr number, access kind and
value are explicitly discarded (`(void)` casts in the source); only `GSTAT.VM`
is cleared before raising the hypervisor exception. -/
def trigger_csr_vm_exit (env : Env) (csr : Nat) (is_write : Bool) (val : Nat) :
    HRes :=
  let env := { env with CSR_GSTAT := fieldDp env.CSR_GSTAT 0 1 0 }
  do_raise_exception env EXCCODE_HVC

/-- helper_csrrd_pgd: select PGDH or PGDL from bit 63 of the relevant bad
virtual address. -/
def helper_csrrd_pgd (env : Env) : Nat :=
  let v := if env.CSR_TLBRERA % 2 == 1 then env.CSR_TLBRBADV else env.CSR_BADV
  if fieldEx v 63 1 == 1 then env.CSR_PGDH else env.CSR_PGDL

/-- helper_csrrd_cpuid: latch the external cpu index into `CSR_CPUID` and
return it. -/
def helper_csrrd_cpuid (env : Env) : Env × Nat :=
  let env := { env with CSR_CPUID := env.cpu_index }
  (env, env.CSR_CPUID)

/-- helper_csrrd_tval: read the external constant-timer tick collaborator. -/
def helper_csrrd_tval (env : Env) : Nat := env.timer_ticks

/-- helper_csrwr_estat: only `IS[1:0]` is writable. -/
def helper_csrwr_estat (env : Env) (val : Nat) : Env × Nat :=
  let old := env.CSR_ESTAT
  ({ env with CSR_ESTAT := fieldDp env.CSR_ESTAT 0 2 val }, old)

/-- helper_csrwr_asid: only the ASID field is written; a change flushes the
host translation cache (external). -/
def helper_csrwr_asid (env : Env) (val : Nat) : Env × Nat :=
  let old := env.CSR_ASID
  let env := { env with CSR_ASID := fieldDp env.CSR_ASID 0 10 val }
  (env, old)

/-- helper_csrwr_tcfg: hands `val` to the external constant-timer collaborator,
which stores the configuration word (modelled as the `CSR_TCFG` update). -/
def helper_csrwr_tcfg (env : Env) (val : Nat) : Env × Nat :=
  let old := env.CSR_TCFG
  ({ env with CSR_TCFG := val }, old)

/-- helper_csrwr_ticlr: bit 0 acknowledges the timer IRQ (drops the external
IRQ line); the returned old value is 0. -/
def helper_csrwr_ticlr (env : Env) (val : Nat) : Env × Nat :=
  let env := if val % 2 == 1 then { env with timer_irq := false } else env
  (env, 0)

/-- Standard-CSR read switch of helper_csrrd_with_lvz (the part after the
guest-mode special cases). -/
def csrrd_std (env : Env) (csr : Nat) : HResV :=
  if csr == LOONGARCH_CSR_CRMD then ⟨env, none, env.CSR_CRMD⟩
  else if csr == LOONGARCH_CSR_PRMD then ⟨env, none, env.CSR_PRMD⟩
  else if csr == LOONGARCH_CSR_EUEN then ⟨env, none, env.CSR_EUEN⟩
  else if csr == LOONGARCH_CSR_MISC then ⟨env, none, env.CSR_MISC⟩
  else if csr == LOONGARCH_CSR_ECFG then ⟨env, none, env.CSR_ECFG⟩
  else if csr == LOONGARCH_CSR_ESTAT then ⟨env, none, env.CSR_ESTAT⟩
  else if csr == LOONGARCH_CSR_ERA then ⟨env, none, env.CSR_ERA⟩
  else if csr == LOONGARCH_CSR_BADV then ⟨env, none, env.CSR_BADV⟩
  else if csr == LOONGARCH_CSR_BADI then ⟨env, none, env.CSR_BADI⟩
  else if csr == LOONGARCH_CSR_EENTRY then ⟨env, none, env.CSR_EENTRY⟩
  else if csr == LOONGARCH_CSR_TLBIDX then ⟨env, none, env.CSR_TLBIDX⟩
  else if csr == LOONGARCH_CSR_TLBEHI then ⟨env, none, env.CSR_TLBEHI⟩
  else if csr == LOONGARCH_CSR_TLBELO0 then ⟨env, none, env.CSR_TLBELO0⟩
  else if csr == LOONGARCH_CSR_TLBELO1 then ⟨env, none, env.CSR_TLBELO1⟩
  else if csr == LOONGARCH_CSR_ASID then ⟨env, none, env.CSR_ASID⟩
  else if csr == LOONGARCH_CSR_PGDL then ⟨env, none, env.CSR_PGDL⟩
  else if csr == LOONGARCH_CSR_PGDH then ⟨env, none, env.CSR_PGDH⟩
  else if csr == LOONGARCH_CSR_PGD then ⟨env, none, helper_csrrd_pgd env⟩
  else if csr == LOONGARCH_CSR_PWCL then ⟨env, none, env.CSR_PWCL⟩
  else if csr == LOONGARCH_CSR_PWCH then ⟨env, none, env.CSR_PWCH⟩
  else if csr == LOONGARCH_CSR_STLBPS then ⟨env, none, env.CSR_STLBPS⟩
  else if csr == LOONGARCH_CSR_RVACFG then ⟨env, none, env.CSR_RVACFG⟩
  else if csr == LOONGARCH_CSR_CPUID then
    let p := helper_csrrd_cpuid env
    ⟨p.1, none, p.2⟩
  else if csr == LOONGARCH_CSR_PRCFG1 then ⟨env, none, env.CSR_PRCFG1⟩
  else if csr == LOONGARCH_CSR_PRCFG2 then ⟨env, none, env.CSR_PRCFG2⟩
  else if csr == LOONGARCH_CSR_PRCFG3 then ⟨env, none, env.CSR_PRCFG3⟩
  else if csr == LOONGARCH_CSR_TID then ⟨env, none, env.CSR_TID⟩
  else if csr == LOONGARCH_CSR_TCFG then ⟨env, none, env.CSR_TCFG⟩
  else if csr == LOONGARCH_CSR_TVAL then ⟨env, none, helper_csrrd_tval env⟩
  else if csr == LOONGARCH_CSR_CNTC then ⟨env, none, env.CSR_CNTC⟩
  else if csr == LOONGARCH_CSR_TICLR then ⟨env, none, env.CSR_TICLR⟩
  else if csr == LOONGARCH_CSR_LLBCTL then ⟨env, none, env.CSR_LLBCTL⟩
  else if csr == LOONGARCH_CSR_IMPCTL1 then ⟨env, none, env.CSR_IMPCTL1⟩
  else if csr == LOONGARCH_CSR_IMPCTL2 then ⟨env, none, env.CSR_IMPCTL2⟩
  else if LOONGARCH_CSR_SAVE_BASE ≤ csr &&
      csr ≤ LOONGARCH_CSR_SAVE_BASE + 15 then
    ⟨env, none, env.CSR_SAVE (csr - LOONGARCH_CSR_SAVE_BASE)⟩
  else if LOONGARCH_CSR_DMW_BASE ≤ csr &&
      csr ≤ LOONGARCH_CSR_DMW_BASE + 3 then
    ⟨env, none, env.CSR_DMW (csr - LOONGARCH_CSR_DMW_BASE)⟩
  else
    let r := trigger_csr_vm_exit env csr false 0
    ⟨r.env, r.exc, 0⟩

/-- helper_csrrd_with_lvz: permission check, guest-mode special cases (CPUID,
TVAL, PGD), then the standard read switch. -/
def helper_csrrd_with_lvz (env : Env) (csr : Nat) : HResV :=
  if !(check_csr_access_permission env csr false) then
    let r := trigger_csr_vm_exit env csr false 0
    ⟨r.env, r.exc, 0⟩
  else if is_guest_mode env && csr == LOONGARCH_CSR_CPUID then
    let p := helper_csrrd_cpuid env
    ⟨p.1, none, p.2⟩
  else if is_guest_mode env && csr == LOONGARCH_CSR_TVAL then
    ⟨env, none, helper_csrrd_tval env⟩
  else if is_guest_mode env && csr == LOONGARCH_CSR_PGD then
    ⟨env, none, helper_csrrd_pgd env⟩
  else
    csrrd_std env csr

/-- Standard-CSR write switch of helper_csrwr_with_lvz (after the special-case
switch); note it has no TVAL, CPUID or PRCFG cases, which fall to the trap
default. -/
def csrwr_std (env : Env) (val : Nat) (csr : Nat) : HResV :=
  if csr == LOONGARCH_CSR_CRMD then
    ⟨{ env with CSR_CRMD := val }, none, env.CSR_CRMD⟩
  else if csr == LOONGARCH_CSR_PRMD then
    ⟨{ env with CSR_PRMD := val }, none, env.CSR_PRMD⟩
  else if csr == LOONGARCH_CSR_EUEN then
    ⟨{ env with CSR_EUEN := val }, none, env.CSR_EUEN⟩
  else if csr == LOONGARCH_CSR_MISC then
    ⟨{ env with CSR_MISC := val }, none, env.CSR_MISC⟩
  else if csr == LOONGARCH_CSR_ECFG then
    ⟨{ env with CSR_ECFG := val }, none, env.CSR_ECFG⟩
  else if csr == LOONGARCH_CSR_ERA then
    ⟨{ env with CSR_ERA := val }, none, env.CSR_ERA⟩
  else if csr == LOONGARCH_CSR_BADV then
    ⟨{ env with CSR_BADV := val }, none, env.CSR_BADV⟩
  else if csr == LOONGARCH_CSR_BADI then
    ⟨{ env with CSR_BADI := val }, none, env.CSR_BADI⟩
  else if csr == LOONGARCH_CSR_EENTRY then
    ⟨{ env with CSR_EENTRY := val }, none, env.CSR_EENTRY⟩
  else if csr == LOONGARCH_CSR_TLBIDX then
    ⟨{ env with CSR_TLBIDX := val }, none, env.CSR_TLBIDX⟩
  else if csr == LOONGARCH_CSR_TLBEHI then
    ⟨{ env with CSR_TLBEHI := val }, none, env.CSR_TLBEHI⟩
  else if csr == LOONGARCH_CSR_TLBELO0 then
    ⟨{ env with CSR_TLBELO0 := val }, none, env.CSR_TLBELO0⟩
  else if csr == LOONGARCH_CSR_TLBELO1 then
    ⟨{ env with CSR_TLBELO1 := val }, none, env.CSR_TLBELO1⟩
  else if csr == LOONGARCH_CSR_PGDL then
    ⟨{ env with CSR_PGDL := val }, none, env.CSR_PGDL⟩
  else if csr == LOONGARCH_CSR_PGDH then
    ⟨{ env with CSR_PGDH := val }, none, env.CSR_PGDH⟩
  else if csr == LOONGARCH_CSR_PGD then
    ⟨{ env with CSR_PGD := val }, none, env.CSR_PGD⟩
  else if csr == LOONGARCH_CSR_PWCL then
    ⟨{ env with CSR_PWCL := val }, none, env.CSR_PWCL⟩
  else if csr == LOONGARCH_CSR_PWCH then
    ⟨{ env with CSR_PWCH := val }, none, env.CSR_PWCH⟩
  else if csr == LOONGARCH_CSR_STLBPS then
    ⟨{ env with CSR_STLBPS := val }, none, env.CSR_STLBPS⟩
  else if csr == LOONGARCH_CSR_RVACFG then
    ⟨{ env with CSR_RVACFG := val }, none, env.CSR_RVACFG⟩
  else if csr == LOONGARCH_CSR_TID then
    ⟨{ env with CSR_TID := val }, none, env.CSR_TID⟩
  else if csr == LOONGARCH_CSR_CNTC then
    ⟨{ env with CSR_CNTC := val }, none, env.CSR_CNTC⟩
  else if csr == LOONGARCH_CSR_LLBCTL then
    ⟨{ env with CSR_LLBCTL := val }, none, env.CSR_LLBCTL⟩
  else if csr == LOONGARCH_CSR_IMPCTL1 then
    ⟨{ env with CSR_IMPCTL1 := val }, none, env.CSR_IMPCTL1⟩
  else if csr == LOONGARCH_CSR_IMPCTL2 then
    ⟨{ env with CSR_IMPCTL2 := val }, none, env.CSR_IMPCTL2⟩
  else if LOONGARCH_CSR_SAVE_BASE ≤ csr &&
      csr ≤ LOONGARCH_CSR_SAVE_BASE + 15 then
    let i := csr - LOONGARCH_CSR_SAVE_BASE
    ⟨{ env with CSR_SAVE := fun j => if j = i then val else env.CSR_SAVE j },
      none, env.CSR_SAVE i⟩
  else if LOONGARCH_CSR_DMW_BASE ≤ csr &&
      csr ≤ LOONGARCH_CSR_DMW_BASE + 3 then
    let i := csr - LOONGARCH_CSR_DMW_BASE
    ⟨{ env with CSR_DMW := fun j => if j = i then val else env.CSR_DMW j },
      none, env.CSR_DMW i⟩
  else
    let r := trigger_csr_vm_exit env csr true val
    ⟨r.env, r.exc, 0⟩

/-- helper_csrwr_with_lvz: permission check, special-case writes (ESTAT, ASID,
TCFG, TICLR), then the standard write switch. -/
def helper_csrwr_with_lvz (env : Env) (val : Nat) (csr : Nat) : HResV :=
  if !(check_csr_access_permission env csr true) then
    let r := trigger_csr_vm_exit env csr true val
    ⟨r.env, r.exc, 0⟩
  else if csr == LOONGARCH_CSR_ESTAT then
    let p := helper_csrwr_estat env val
    ⟨p.1, none, p.2⟩
  else if csr == LOONGARCH_CSR_ASID then
    let p := helper_csrwr_asid env val
    ⟨p.1, none, p.2⟩
  else if csr == LOONGARCH_CSR_TCFG then
    let p := helper_csrwr_tcfg env val
    ⟨p.1, none, p.2⟩
  else if csr == LOONGARCH_CSR_TICLR then
    let p := helper_csrwr_ticlr env val
    ⟨p.1, none, p.2⟩
  else
    csrwr_std env val csr

/-- Bitwise complement within 64 bits. -/
def not64 (x : Nat) : Nat := (2 ^ 64 - 1) ^^^ x % 2 ^ 64

/-- helper_csrxchg_with_lvz: permission check, then read-modify-write with
`new = (old & ~rd) | (rj & rd)`; an exception raised by the read or the write
aborts the helper. -/
def helper_csrxchg_with_lvz (env : Env) (rj rd : Nat) (csr : Nat) : HResV :=
  if !(check_csr_access_permission env csr true) then
    let r := trigger_csr_vm_exit env csr true rj
    ⟨r.env, r.exc, 0⟩
  else
    let r1 := helper_csrrd_with_lvz env csr
    match r1.exc with
    | some e => ⟨r1.env, some e, 0⟩
    | none =>
      let old_val := r1.val
      let new_val := old_val &&& not64 rd ||| (rj &&& rd)
      let r2 := helper_csrwr_with_lvz r1.env new_val csr
      match r2.exc with
      | some e => ⟨r2.env, some e, 0⟩
      | none => ⟨r2.env, none, old_val⟩

/-- Modelled from the spec: the guest shadow bank is "a parallel copy of the
same register set", so the `LOONGARCH_GCSR_*` numbering used by
`get_guest_csr_ptr` mirrors the host `LOONGARCH_CSR_*` numbering (cpu-csr.h
is absent from src).  `get_guest_csr_ptr` returns a pointer to guest-bank
storage or NULL; it is embedded as a validity predicate plus a read and a
write function over the same case list. -/
def gcsr_ptr_exists (csr : Nat) : Bool :=
  if csr == LOONGARCH_CSR_CRMD then true
  else if csr == LOONGARCH_CSR_PRMD then true
  else if csr == LOONGARCH_CSR_EUEN then true
  else if csr == LOONGARCH_CSR_MISC then true
  else if csr == LOONGARCH_CSR_ECFG then true
  else if csr == LOONGARCH_CSR_ESTAT then true
  else if csr == LOONGARCH_CSR_ERA then true
  else if csr == LOONGARCH_CSR_BADV then true
  else if csr == LOONGARCH_CSR_BADI then true
  else if csr == LOONGARCH_CSR_EENTRY then true
  else if csr == LOONGARCH_CSR_TLBIDX then true
  else if csr == LOONGARCH_CSR_TLBEHI then true
  else if csr == LOONGARCH_CSR_TLBELO0 then true
  else if csr == LOONGARCH_CSR_TLBELO1 then true
  else if csr == LOONGARCH_CSR_ASID then true
  else if csr == LOONGARCH_CSR_PGDL then true
  else if csr == LOONGARCH_CSR_PGDH then true
  else if csr == LOONGARCH_CSR_PGD then true
  else if csr == LOONGARCH_CSR_PWCL then true
  else if csr == LOONGARCH_CSR_PWCH then true
  else if csr == LOONGARCH_CSR_STLBPS then true
  else if csr == LOONGARCH_CSR_RVACFG then true
  else if csr == LOONGARCH_CSR_CPUID then true
  else if csr == LOONGARCH_CSR_PRCFG1 then true
  else if csr == LOONGARCH_CSR_PRCFG2 then true
  else if csr == LOONGARCH_CSR_PRCFG3 then true
  else if csr == LOONGARCH_CSR_TID then true
  else if csr == LOONGARCH_CSR_TCFG then true
  else if csr == LOONGARCH_CSR_TVAL then true
  else if csr == LOONGARCH_CSR_CNTC then true
  else if csr == LOONGARCH_CSR_TICLR then true
  else if csr == LOONGARCH_CSR_LLBCTL then true
  else if csr == LOONGARCH_CSR_IMPCTL1 then true
  else if csr == LOONGARCH_CSR_IMPCTL2 then true
  else if csr == LOONGARCH_CSR_TLBRENTRY then true
  else if csr == LOONGARCH_CSR_TLBRBADV then true
  else if csr == LOONGARCH_CSR_TLBRERA then true
  else if csr == LOONGARCH_CSR_TLBRSAVE then true
  else if csr == LOONGARCH_CSR_TLBRELO0 then true
  else if csr == LOONGARCH_CSR_TLBRELO1 then true
  else if csr == LOONGARCH_CSR_TLBREHI then true
  else if csr == LOONGARCH_CSR_TLBRPRMD then true
  else if csr == LOONGARCH_CSR_MERRCTL then true
  else if csr == LOONGARCH_CSR_MERRINFO1 then true
  else if csr == LOONGARCH_CSR_MERRINFO2 then true
  else if csr == LOONGARCH_CSR_MERRENTRY then true
  else if csr == LOONGARCH_CSR_MERRERA then true
  else if csr == LOONGARCH_CSR_MERRSAVE then true
  else if csr == LOONGARCH_CSR_CTAG then true
  else if LOONGARCH_CSR_DMW_BASE ≤ csr &&
      csr ≤ LOONGARCH_CSR_DMW_BASE + 3 then true
  else if csr == LOONGARCH_CSR_DBG then true
  else if csr == LOONGARCH_CSR_DERA then true
  else if csr == LOONGARCH_CSR_DSAVE then true
  else if LOONGARCH_CSR_SAVE_BASE ≤ csr &&
      csr ≤ LOONGARCH_CSR_SAVE_BASE + 15 then true
  else false

/-- Read through `get_guest_csr_ptr` (meaningful when `gcsr_ptr_exists`). -/
def gcsr_read (env : Env) (csr : Nat) : Nat :=
  if csr == LOONGARCH_CSR_CRMD then env.GCSR_CRMD
  else if csr == LOONGARCH_CSR_PRMD then env.GCSR_PRMD
  else if csr == LOONGARCH_CSR_EUEN then env.GCSR_EUEN
  else if csr == LOONGARCH_CSR_MISC then env.GCSR_MISC
  else if csr == LOONGARCH_CSR_ECFG then env.GCSR_ECFG
  else if csr == LOONGARCH_CSR_ESTAT then env.GCSR_ESTAT
  else if csr == LOONGARCH_CSR_ERA then env.GCSR_ERA
  else if csr == LOONGARCH_CSR_BADV then env.GCSR_BADV
  else if csr == LOONGARCH_CSR_BADI then env.GCSR_BADI
  else if csr == LOONGARCH_CSR_EENTRY then env.GCSR_EENTRY
  else if csr == LOONGARCH_CSR_TLBIDX then env.GCSR_TLBIDX
  else if csr == LOONGARCH_CSR_TLBEHI then env.GCSR_TLBEHI
  else if csr == LOONGARCH_CSR_TLBELO0 then env.GCSR_TLBELO0
  else if csr == LOONGARCH_CSR_TLBELO1 then env.GCSR_TLBELO1
  else if csr == LOONGARCH_CSR_ASID then env.GCSR_ASID
  else if csr == LOONGARCH_CSR_PGDL then env.GCSR_PGDL
  else if csr == LOONGARCH_CSR_PGDH then env.GCSR_PGDH
  else if csr == LOONGARCH_CSR_PGD then env.GCSR_PGD
  else if csr == LOONGARCH_CSR_PWCL then env.GCSR_PWCL
  else if csr == LOONGARCH_CSR_PWCH then env.GCSR_PWCH
  else if csr == LOONGARCH_CSR_STLBPS then env.GCSR_STLBPS
  else if csr == LOONGARCH_CSR_RVACFG then env.GCSR_RVACFG
  else if csr == LOONGARCH_CSR_CPUID then env.GCSR_CPUID
  else if csr == LOONGARCH_CSR_PRCFG1 then env.GCSR_PRCFG1
  else if csr == LOONGARCH_CSR_PRCFG2 then env.GCSR_PRCFG2
  else if csr == LOONGARCH_CSR_PRCFG3 then env.GCSR_PRCFG3
  else if csr == LOONGARCH_CSR_TID then env.GCSR_TID
  else if csr == LOONGARCH_CSR_TCFG then env.GCSR_TCFG
  else if csr == LOONGARCH_CSR_TVAL then env.GCSR_TVAL
  else if csr == LOONGARCH_CSR_CNTC then env.GCSR_CNTC
  else if csr == LOONGARCH_CSR_TICLR then env.GCSR_TICLR
  else if csr == LOONGARCH_CSR_LLBCTL then env.GCSR_LLBCTL
  else if csr == LOONGARCH_CSR_IMPCTL1 then env.GCSR_IMPCTL1
  else if csr == LOONGARCH_CSR_IMPCTL2 then env.GCSR_IMPCTL2
  else if csr == LOONGARCH_CSR_TLBRENTRY then env.GCSR_TLBRENTRY
  else if csr == LOONGARCH_CSR_TLBRBADV then env.GCSR_TLBRBADV
  else if csr == LOONGARCH_CSR_TLBRERA then env.GCSR_TLBRERA
  else if csr == LOONGARCH_CSR_TLBRSAVE then env.GCSR_TLBRSAVE
  else if csr == LOONGARCH_CSR_TLBRELO0 then env.GCSR_TLBRELO0
  else if csr == LOONGARCH_CSR_TLBRELO1 then env.GCSR_TLBRELO1
  else if csr == LOONGARCH_CSR_TLBREHI then env.GCSR_TLBREHI
  else if csr == LOONGARCH_CSR_TLBRPRMD then env.GCSR_TLBRPRMD
  else if csr == LOONGARCH_CSR_MERRCTL then env.GCSR_MERRCTL
  else if csr == LOONGARCH_CSR_MERRINFO1 then env.GCSR_MERRINFO1
  else if csr == LOONGARCH_CSR_MERRINFO2 then env.GCSR_MERRINFO2
  else if csr == LOONGARCH_CSR_MERRENTRY then env.GCSR_MERRENTRY
  else if csr == LOONGARCH_CSR_MERRERA then env.GCSR_MERRERA
  else if csr == LOONGARCH_CSR_MERRSAVE then env.GCSR_MERRSAVE
  else if csr == LOONGARCH_CSR_CTAG then env.GCSR_CTAG
  else if LOONGARCH_CSR_DMW_BASE ≤ csr &&
      csr ≤ LOONGARCH_CSR_DMW_BASE + 3 then
    env.GCSR_DMW (csr - LOONGARCH_CSR_DMW_BASE)
  else if csr == LOONGARCH_CSR_DBG then env.GCSR_DBG
  else if csr == LOONGARCH_CSR_DERA then env.GCSR_DERA
  else if csr == LOONGARCH_CSR_DSAVE then env.GCSR_DSAVE
  else if LOONGARCH_CSR_SAVE_BASE ≤ csr &&
      csr ≤ LOONGARCH_CSR_SAVE_BASE + 15 then
    env.GCSR_SAVE (csr - LOONGARCH_CSR_SAVE_BASE)
  else 0

/-- Write through `get_guest_csr_ptr` (meaningful when `gcsr_ptr_exists`). -/
def gcsr_write (env : Env) (csr : Nat) (v : Nat) : Env :=
  if csr == LOONGARCH_CSR_CRMD then { env with GCSR_CRMD := v }
  else if csr == LOONGARCH_CSR_PRMD then { env with GCSR_PRMD := v }
  else if csr == LOONGARCH_CSR_EUEN then { env with GCSR_EUEN := v }
  else if csr == LOONGARCH_CSR_MISC then { env with GCSR_MISC := v }
  else if csr == LOONGARCH_CSR_ECFG then { env with GCSR_ECFG := v }
  else if csr == LOONGARCH_CSR_ESTAT then { env with GCSR_ESTAT := v }
  else if csr == LOONGARCH_CSR_ERA then { env with GCSR_ERA := v }
  else if csr == LOONGARCH_CSR_BADV then { env with GCSR_BADV := v }
  else if csr == LOONGARCH_CSR_BADI then { env with GCSR_BADI := v }
  else if csr == LOONGARCH_CSR_EENTRY then { env with GCSR_EENTRY := v }
  else if csr == LOONGARCH_CSR_TLBIDX then { env with GCSR_TLBIDX := v }
  else if csr == LOONGARCH_CSR_TLBEHI then { env with GCSR_TLBEHI := v }
  else if csr == LOONGARCH_CSR_TLBELO0 then { env with GCSR_TLBELO0 := v }
  else if csr == LOONGARCH_CSR_TLBELO1 then { env with GCSR_TLBELO1 := v }
  else if csr == LOONGARCH_CSR_ASID then { env with GCSR_ASID := v }
  else if csr == LOONGARCH_CSR_PGDL then { env with GCSR_PGDL := v }
  else if csr == LOONGARCH_CSR_PGDH then { env with GCSR_PGDH := v }
  else if csr == LOONGARCH_CSR_PGD then { env with GCSR_PGD := v }
  else if csr == LOONGARCH_CSR_PWCL then { env with GCSR_PWCL := v }
  else if csr == LOONGARCH_CSR_PWCH then { env with GCSR_PWCH := v }
  else if csr == LOONGARCH_CSR_STLBPS then { env with GCSR_STLBPS := v }
  else if csr == LOONGARCH_CSR_RVACFG then { env with GCSR_RVACFG := v }
  else if csr == LOONGARCH_CSR_CPUID then { env with GCSR_CPUID := v }
  else if csr == LOONGARCH_CSR_PRCFG1 then { env with GCSR_PRCFG1 := v }
  else if csr == LOONGARCH_CSR_PRCFG2 then { env with GCSR_PRCFG2 := v }
  else if csr == LOONGARCH_CSR_PRCFG3 then { env with GCSR_PRCFG3 := v }
  else if csr == LOONGARCH_CSR_TID then { env with GCSR_TID := v }
  else if csr == LOONGARCH_CSR_TCFG then { env with GCSR_TCFG := v }
  else if csr == LOONGARCH_CSR_TVAL then { env with GCSR_TVAL := v }
  else if csr == LOONGARCH_CSR_CNTC then { env with GCSR_CNTC := v }
  else if csr == LOONGARCH_CSR_TICLR then { env with GCSR_TICLR := v }
  else if csr == LOONGARCH_CSR_LLBCTL then { env with GCSR_LLBCTL := v }
  else if csr == LOONGARCH_CSR_IMPCTL1 then { env with GCSR_IMPCTL1 := v }
  else if csr == LOONGARCH_CSR_IMPCTL2 then { env with GCSR_IMPCTL2 := v }
  else if csr == LOONGARCH_CSR_TLBRENTRY then { env with GCSR_TLBRENTRY := v }
  else if csr == LOONGARCH_CSR_TLBRBADV then { env with GCSR_TLBRBADV := v }
  else if csr == LOONGARCH_CSR_TLBRERA then { env with GCSR_TLBRERA := v }
  else if csr == LOONGARCH_CSR_TLBRSAVE then { env with GCSR_TLBRSAVE := v }
  else if csr == LOONGARCH_CSR_TLBRELO0 then { env with GCSR_TLBRELO0 := v }
  else if csr == LOONGARCH_CSR_TLBRELO1 then { env with GCSR_TLBRELO1 := v }
  else if csr == LOONGARCH_CSR_TLBREHI then { env with GCSR_TLBREHI := v }
  else if csr == LOONGARCH_CSR_TLBRPRMD then { env with GCSR_TLBRPRMD := v }
  else if csr == LOONGARCH_CSR_MERRCTL then { env with GCSR_MERRCTL := v }
  else if csr == LOONGARCH_CSR_MERRINFO1 then { env with GCSR_MERRINFO1 := v }
  else if csr == LOONGARCH_CSR_MERRINFO2 then { env with GCSR_MERRINFO2 := v }
  else if csr == LOONGARCH_CSR_MERRENTRY then { env with GCSR_MERRENTRY := v }
  else if csr == LOONGARCH_CSR_MERRERA then { env with GCSR_MERRERA := v }
  else if csr == LOONGARCH_CSR_MERRSAVE then { env with GCSR_MERRSAVE := v }
  else if csr == LOONGARCH_CSR_CTAG then { env with GCSR_CTAG := v }
  else if LOONGARCH_CSR_DMW_BASE ≤ csr &&
      csr ≤ LOONGARCH_CSR_DMW_BASE + 3 then
    { env with GCSR_DMW := fun j =>
        if j = csr - LOONGARCH_CSR_DMW_BASE then v else env.GCSR_DMW j }
  else if csr == LOONGARCH_CSR_DBG then { env with GCSR_DBG := v }
  else if csr == LOONGARCH_CSR_DERA then { env with GCSR_DERA := v }
  else if csr == LOONGARCH_CSR_DSAVE then { env with GCSR_DSAVE := v }
  else if LOONGARCH_CSR_SAVE_BASE ≤ csr &&
      csr ≤ LOONGARCH_CSR_SAVE_BASE + 15 then
    { env with GCSR_SAVE := fun j =>
        if j = csr - LOONGARCH_CSR_SAVE_BASE then v else env.GCSR_SAVE j }
  else env

/-- helper_gcsrrd: guest-only CSR read.  Raises `EXCCODE_IPE` outside guest
mode; a NULL guest pointer or a closed `GCFG` gate (`SITP` bit 6 for ESTAT,
`TITP` bit 8 for TCFG/TVAL) triggers a VM-exit; otherwise reads the guest
bank. -/
def helper_gcsrrd (env : Env) (csr : Nat) : HResV :=
  if !(is_guest_mode env) then
    let r := do_raise_exception env EXCCODE_IPE
    ⟨r.env, r.exc, 0⟩
  else if !(gcsr_ptr_exists csr) then
    let r := trigger_vm_exit env VMEXIT_CSRR csr
    ⟨r.env, r.exc, 0⟩
  else if csr == LOONGARCH_CSR_ESTAT && fieldEx env.CSR_GCFG 6 1 == 0 then
    let r := trigger_vm_exit env VMEXIT_CSRR csr
    ⟨r.env, r.exc, 0⟩
  else if (csr == LOONGARCH_CSR_TCFG || csr == LOONGARCH_CSR_TVAL) &&
      fieldEx env.CSR_GCFG 8 1 == 0 then
    let r := trigger_vm_exit env VMEXIT_TIMER csr
    ⟨r.env, r.exc, 0⟩
  else ⟨env, none, gcsr_read env csr⟩

/-- helper_gcsrxchg: guest-only CSR exchange.  Raises `EXCCODE_IPE` outside
guest mode; a NULL guest pointer triggers a VM-exit; the `GCFG` gates (`SITO`
bit 7 for ESTAT, `TITO` bit 9 for TCFG) trigger a VM-exit; otherwise stores
`(old & ~rd) | (rj & rd)` into the guest bank and returns the old value.
Unlike `helper_gcsrwr` there is no TICLR special case. -/
def helper_gcsrxchg (env : Env) (rj rd : Nat) (csr : Nat) : HResV :=
  if !(is_guest_mode env) then
    let r := do_raise_exception env EXCCODE_IPE
    ⟨r.env, r.exc, 0⟩
  else if !(gcsr_ptr_exists csr) then
    let r := trigger_vm_exit env VMEXIT_CSRX csr
    ⟨r.env, r.exc, 0⟩
  else
    let old_val := gcsr_read env csr
    let new_val := old_val &&& not64 rd ||| (rj &&& rd)
    if csr == LOONGARCH_CSR_ESTAT && fieldEx env.CSR_GCFG 7 1 == 0 then
      let r := trigger_vm_exit env VMEXIT_CSRX csr
      ⟨r.env, r.exc, 0⟩
    else if csr == LOONGARCH_CSR_TCFG && fieldEx env.CSR_GCFG 9 1 == 0 then
      let r := trigger_vm_exit env VMEXIT_TIMER csr
      ⟨r.env, r.exc, 0⟩
    else ⟨gcsr_write env csr new_val, none, old_val⟩

/-!
Theorems about the claims.
-/

@[simp] theorem fieldEx_fieldDp_self_of_lt (v sh len x : Nat) (h : x < 2 ^ len) :
    fieldEx (fieldDp v sh len x) sh len = x := by
  rw [fieldEx_fieldDp_self, Nat.mod_eq_of_lt h]

@[simp] theorem fieldEx_lt_of_le (v sh len n : Nat) (h : 2 ^ len ≤ n) :
    fieldEx v sh len < n :=
  lt_of_lt_of_le (fieldEx_lt v sh len) h

attribute [simp] fieldEx_fieldDp_below fieldEx_fieldDp_above

@[simp] theorem set_pc_CSR_CRMD (env : Env) (v : Nat) :
    (set_pc env v).CSR_CRMD = env.CSR_CRMD := by
  unfold set_pc
  split <;> rfl

@[simp] theorem set_pc_CSR_GSTAT (env : Env) (v : Nat) :
    (set_pc env v).CSR_GSTAT = env.CSR_GSTAT := by
  unfold set_pc
  split <;> rfl

/-- Concrete guest-execution-context state used by witnesses: LVZ capability
on, `lvz_enabled`, `GSTAT.VM = 1`, GID 3, `CRMD.PLV = 1`, `CRMD.IE = 1`. -/
def envGuest : Env :=
  { cpucfg := fun i => if i = 2 then 2 ^ 10 else 0
    lvz_enabled := true
    CSR_GSTAT := 1 + 3 * 2 ^ 16
    CSR_CRMD := 5
    pc := 0x1234 }

/-- C3: in guest execution context, `helper_vm_exit_cpu` builds
`GCSR_PRMD.PPLV` from `CRMD.PLV` and `GCSR_PRMD.PIE` from `CRMD.IE`, writes
the current PC into `GCSR_ERA`, writes `EXCCODE_HVC` into
`GCSR_ESTAT.ECODE`, and forces host `CRMD.PLV = 0` and `CRMD.IE = 0`. -/
theorem vm_exit_cpu_updates_guest_context (env : Env) (reason : Nat)
    (h : is_guest_execution_context env = true) :
    fieldEx (helper_vm_exit_cpu env reason).env.GCSR_PRMD 0 2
        = fieldEx env.CSR_CRMD 0 2 ∧
    fieldEx (helper_vm_exit_cpu env reason).env.GCSR_PRMD 2 1
        = fieldEx env.CSR_CRMD 2 1 ∧
    (helper_vm_exit_cpu env reason).env.GCSR_ERA = env.pc ∧
    fieldEx (helper_vm_exit_cpu env reason).env.GCSR_ESTAT 16 6 = EXCCODE_HVC ∧
    fieldEx (helper_vm_exit_cpu env reason).env.CSR_CRMD 0 2 = 0 ∧
    fieldEx (helper_vm_exit_cpu env reason).env.CSR_CRMD 2 1 = 0 := by
  simp [helper_vm_exit_cpu, h, do_raise_exception, EXCCODE_HVC]

theorem vm_exit_cpu_updates_guest_context_witness :
    is_guest_execution_context envGuest = true ∧
    (fieldEx (helper_vm_exit_cpu envGuest 8).env.GCSR_PRMD 0 2
        = fieldEx envGuest.CSR_CRMD 0 2 ∧
      fieldEx (helper_vm_exit_cpu envGuest 8).env.GCSR_PRMD 2 1
        = fieldEx envGuest.CSR_CRMD 2 1 ∧
      (helper_vm_exit_cpu envGuest 8).env.GCSR_ERA = envGuest.pc ∧
      fieldEx (helper_vm_exit_cpu envGuest 8).env.GCSR_ESTAT 16 6 = EXCCODE_HVC ∧
      fieldEx (helper_vm_exit_cpu envGuest 8).env.CSR_CRMD 0 2 = 0 ∧
      fieldEx (helper_vm_exit_cpu envGuest 8).env.CSR_CRMD 2 1 = 0) :=
  ⟨by decide, vm_exit_cpu_updates_guest_context envGuest 8 (by decide)⟩

/-- C4: `helper_ertn` restores `CRMD.PLV` and `CRMD.IE` from the PPLV/PIE
fields of the effective PRMD (TLBRPRMD when `TLBRERA.ISTLBR` is set), taken
from the guest bank in guest execution context and the host bank otherwise;
and from guest execution context the post-state `GSTAT.VM` equals the
pre-state `GSTAT.PVM`. -/
theorem ertn_restores_plv_ie_and_vm (env : Env) :
    fieldEx (helper_ertn env).CSR_CRMD 0 2
        = fieldEx
          (if fieldEx env.CSR_TLBRERA 0 1 != 0 then
            (if is_guest_execution_context env then env.GCSR_TLBRPRMD
             else env.CSR_TLBRPRMD)
           else
            (if is_guest_execution_context env then env.GCSR_PRMD
             else env.CSR_PRMD)) 0 2 ∧
    fieldEx (helper_ertn env).CSR_CRMD 2 1
        = fieldEx
          (if fieldEx env.CSR_TLBRERA 0 1 != 0 then
            (if is_guest_execution_context env then env.GCSR_TLBRPRMD
             else env.CSR_TLBRPRMD)
           else
            (if is_guest_execution_context env then env.GCSR_PRMD
             else env.CSR_PRMD)) 2 1 ∧
    (is_guest_execution_context env = true →
      fieldEx (helper_ertn env).CSR_GSTAT 0 1 = fieldEx env.CSR_GSTAT 1 1) := by
  unfold helper_ertn
  cases hg : is_guest_execution_context env <;>
    cases ht : fieldEx env.CSR_TLBRERA 0 1 != 0 <;>
      simp [hg, ht]

theorem ertn_restores_plv_ie_and_vm_witness :
    is_guest_execution_context envGuest = true ∧
    fieldEx (helper_ertn envGuest).CSR_GSTAT 0 1
        = fieldEx envGuest.CSR_GSTAT 1 1 :=
  ⟨by decide, (ertn_restores_plv_ie_and_vm envGuest).2.2 (by decide)⟩

/-- C2 counterexample: `helper_hvcl` (a hypercall VM-exit trap path, via
`trigger_vm_exit`) on a guest state with `GSTAT.VM = 1` and `GSTAT.PVM = 0`
clears `VM` but leaves `PVM = 0`, where the claim requires
`PVM = pre.VM = 1`. -/
theorem vm_exit_trap_path_pvm_not_updated :
    fieldEx envGuest.CSR_GSTAT 0 1 = 1 ∧
    fieldEx (helper_hvcl envGuest 0x42).env.CSR_GSTAT 0 1 = 0 ∧
    fieldEx (helper_hvcl envGuest 0x42).env.CSR_GSTAT 1 1 = 0 := by
  decide

/-- C2 amended: `helper_vm_exit_cpu` in guest execution context produces
`GSTAT.VM = 0` and `GSTAT.PVM = pre.VM`; the `trigger_vm_exit` and
`trigger_csr_vm_exit` trap paths only clear `VM` and leave `PVM` unchanged. -/
theorem vm_exit_vm_pvm (env : Env) (reason info : Nat) (w : Bool)
    (h : is_guest_execution_context env = true) :
    (fieldEx (helper_vm_exit_cpu env reason).env.CSR_GSTAT 0 1 = 0 ∧
      fieldEx (helper_vm_exit_cpu env reason).env.CSR_GSTAT 1 1
        = fieldEx env.CSR_GSTAT 0 1) ∧
    (fieldEx (trigger_vm_exit env reason info).env.CSR_GSTAT 0 1 = 0 ∧
      fieldEx (trigger_vm_exit env reason info).env.CSR_GSTAT 1 1
        = fieldEx env.CSR_GSTAT 1 1) ∧
    (fieldEx (trigger_csr_vm_exit env info w reason).env.CSR_GSTAT 0 1 = 0 ∧
      fieldEx (trigger_csr_vm_exit env info w reason).env.CSR_GSTAT 1 1
        = fieldEx env.CSR_GSTAT 1 1) := by
  simp [helper_vm_exit_cpu, trigger_vm_exit, trigger_csr_vm_exit,
    do_raise_exception, h]

theorem vm_exit_vm_pvm_witness :
    is_guest_execution_context envGuest = true ∧
    fieldEx (helper_vm_exit_cpu envGuest 8).env.CSR_GSTAT 0 1 = 0 ∧
    fieldEx (helper_vm_exit_cpu envGuest 8).env.CSR_GSTAT 1 1
      = fieldEx envGuest.CSR_GSTAT 0 1 :=
  ⟨by decide, (vm_exit_vm_pvm envGuest 8 0 false (by decide)).1⟩

/-- C5 counterexample: the post-state of `helper_hvcl` is bit-identical for
two different hypercall codes, and `vm_exit_ctx.exit_reason` stays 0 rather
than `HYPERCALL`: the operand is not recorded in any auxiliary slot. -/
theorem hvcl_code_not_recorded :
    helper_hvcl envGuest 0x42 = helper_hvcl envGuest 0x43 ∧
    (helper_hvcl envGuest 0x42).env.vm_exit_ctx.exit_reason = 0 ∧
    (helper_hvcl envGuest 0x42).exc = some EXCCODE_HVC :=
  ⟨rfl, rfl, rfl⟩

/-- C5 amended: in guest mode `hvcl` performs a VM-exit (clears `GSTAT.VM`
and raises `EXCCODE_HVC`) with no other state change, and in particular
without recording the reason or the code; outside guest mode (or without the
LVZ capability, which guest mode presupposes) it raises the
illegal-instruction exception `EXCCODE_INE` and changes nothing. -/
theorem hvcl_guest_exit_host_ine (env : Env) (code : Nat) :
    (is_guest_mode env = true →
      (helper_hvcl env code).env
          = { env with CSR_GSTAT := fieldDp env.CSR_GSTAT 0 1 0 } ∧
      (helper_hvcl env code).exc = some EXCCODE_HVC) ∧
    (is_guest_mode env = false →
      (helper_hvcl env code).env = env ∧
      (helper_hvcl env code).exc = some EXCCODE_INE) := by
  cases h : is_guest_mode env
  · simp [helper_hvcl, h, do_raise_exception]
  · have hlvz : has_lvz_capability env = true := by
      have h2 := h
      simp only [is_guest_mode, Bool.and_eq_true] at h2
      exact h2.1
    simp [helper_hvcl, h, hlvz, trigger_vm_exit, do_raise_exception]

theorem hvcl_guest_exit_host_ine_witness :
    (helper_hvcl envGuest 0x42).env
        = { envGuest with CSR_GSTAT := fieldDp envGuest.CSR_GSTAT 0 1 0 } ∧
    (helper_hvcl envGuest 0x42).exc = some EXCCODE_HVC :=
  (hvcl_guest_exit_host_ine envGuest 0x42).1 (by decide)

/-- Guest state with a pending timer IRQ, for the TICLR claim. -/
def envGuestTimer : Env := { envGuest with timer_irq := true }

/-- C6 counterexample: a guest `csrwr(TICLR, 1)` does trap (clears `GSTAT.VM`
and raises `EXCCODE_HVC`, leaving the timer IRQ pending), but the recorded
`vm_exit_ctx.exit_reason` stays 0 rather than `CSRW`, and the post-state is
bit-identical to that of a trapped write to a different CSR (`TLBRERA`), so
neither the reason `CSRW` nor the CSR index is recorded anywhere. -/
theorem csrwr_ticlr_reason_not_recorded :
    (helper_csrwr_with_lvz envGuestTimer 1 LOONGARCH_CSR_TICLR).exc
        = some EXCCODE_HVC ∧
    fieldEx (helper_csrwr_with_lvz envGuestTimer 1 LOONGARCH_CSR_TICLR).env.CSR_GSTAT
        0 1 = 0 ∧
    (helper_csrwr_with_lvz envGuestTimer 1 LOONGARCH_CSR_TICLR).env.timer_irq
        = true ∧
    (helper_csrwr_with_lvz envGuestTimer 1 LOONGARCH_CSR_TICLR).env.vm_exit_ctx.exit_reason
        = 0 ∧
    (helper_csrwr_with_lvz envGuestTimer 1 LOONGARCH_CSR_TICLR).env
        = (helper_csrwr_with_lvz envGuestTimer 1 LOONGARCH_CSR_TLBRERA).env := by
  refine ⟨by decide, by decide, by decide, by decide, rfl⟩

/-- C6 amended: in guest mode, `csrwr(TICLR, v)` is trapped: the whole result
is exactly the pre-state with `GSTAT.VM` cleared together with the raised
hypervisor exception — no timer-IRQ change, no CSR change, and no recording
of the reason or CSR index. -/
theorem csrwr_ticlr_guest_traps (env : Env) (val : Nat)
    (h : is_guest_mode env = true) :
    helper_csrwr_with_lvz env val LOONGARCH_CSR_TICLR
      = ⟨{ env with CSR_GSTAT := fieldDp env.CSR_GSTAT 0 1 0 },
          some EXCCODE_HVC, 0⟩ := by
  have hlvz : has_lvz_capability env = true := by
    have h2 := h
    simp only [is_guest_mode, Bool.and_eq_true] at h2
    exact h2.1
  simp [helper_csrwr_with_lvz, check_csr_access_permission, h, hlvz,
    trigger_csr_vm_exit, do_raise_exception]

theorem csrwr_ticlr_guest_traps_witness :
    helper_csrwr_with_lvz envGuestTimer 1 LOONGARCH_CSR_TICLR
      = ⟨{ envGuestTimer with
            CSR_GSTAT := fieldDp envGuestTimer.CSR_GSTAT 0 1 0 },
          some EXCCODE_HVC, 0⟩ :=
  csrwr_ticlr_guest_traps envGuestTimer 1 (by decide)

/-- Writing back the value read at the same index is the identity update. -/
theorem update_self (f : Nat → Nat) (i : Nat) :
    (fun j => if j = i then f i else f j) = f := by
  funext j
  by_cases h : j = i
  · simp [h]
  · simp [h]

/-- And-with the 64-bit all-ones mask (`not64 0`) is reduction mod `2 ^ 64`. -/
theorem and_not64_zero (x : Nat) : x &&& not64 0 = x % 2 ^ 64 := by
  have h := Nat.and_pow_two_sub_one_eq_mod x 64
  simpa [not64] using h

/-- The CSRs whose guest access is unconditionally allowed and whose read and
write paths are plain accesses of the same host-bank storage: CRMD, PRMD,
EUEN, MISC, ECFG, ERA, BADV, BADI, EENTRY, TLBIDX, TLBEHI, TLBELO0, TLBELO1,
PGDL, PGDH, PWCL, PWCH, STLBPS, RVACFG, LLBCTL, SAVE0-15 and DMW0-3. -/
def plainCsrList : List Nat :=
  [0x0, 0x1, 0x2, 0x3, 0x4, 0x6, 0x7, 0x8, 0xc,
   0x10, 0x11, 0x12, 0x13, 0x19, 0x1a, 0x1c, 0x1d, 0x1e, 0x1f, 0x60,
   0x30, 0x31, 0x32, 0x33, 0x34, 0x35, 0x36, 0x37,
   0x38, 0x39, 0x3a, 0x3b, 0x3c, 0x3d, 0x3e, 0x3f,
   0x180, 0x181, 0x182, 0x183]

/-- Access to a plain CSR passes the permission check in either mode. -/
theorem check_plain (env : Env) (c : Nat) (w : Bool) (hc : c ∈ plainCsrList) :
    check_csr_access_permission env c w = true := by
  cases hg : is_guest_mode env
  · simp [check_csr_access_permission, hg]
  · have hlvz : has_lvz_capability env = true := by
      have h2 := hg
      simp only [is_guest_mode, Bool.and_eq_true] at h2
      exact h2.1
    fin_cases hc <;>
      simp [check_csr_access_permission, hg, hlvz, LOONGARCH_CSR_SAVE_BASE,
        LOONGARCH_CSR_DMW_BASE]

set_option maxHeartbeats 1000000 in
/-- For the plain bank CSRs the guest form `gcsrxchg` trips no `GCFG` gate in
guest mode: the zero-mask exchange is a pure read of the guest bank and the
general mask stores `(old & ~rd) | (rj & rd)` there. -/
theorem gcsrxchg_plain_law (env : Env) (rj rd c : Nat) (hc : c ∈ plainCsrList)
    (hg : is_guest_mode env = true) (hltg : gcsr_read env c < 2 ^ 64) :
    (helper_gcsrxchg env rj 0 c).env = env ∧
    (helper_gcsrxchg env rj 0 c).exc = none ∧
    (helper_gcsrxchg env rj 0 c).val = (helper_gcsrrd env c).val ∧
    (helper_gcsrrd env c).exc = none ∧
    (helper_gcsrxchg env rj rd c).exc = none ∧
    gcsr_read (helper_gcsrxchg env rj rd c).env c
      = gcsr_read env c &&& not64 rd ||| (rj &&& rd) := by
  simp only [plainCsrList, List.mem_cons, List.not_mem_nil, or_false] at hc
  rcases hc with rfl | rfl | rfl | rfl | rfl | rfl | rfl | rfl | rfl | rfl | rfl | rfl | rfl | rfl | rfl | rfl | rfl | rfl | rfl | rfl | rfl | rfl | rfl | rfl | rfl | rfl | rfl | rfl | rfl | rfl | rfl | rfl | rfl | rfl | rfl | rfl | rfl | rfl | rfl | rfl <;>
    (simp [gcsr_read, LOONGARCH_CSR_SAVE_BASE, LOONGARCH_CSR_DMW_BASE] at hltg
     simp [helper_gcsrxchg, helper_gcsrrd, gcsr_ptr_exists, gcsr_read,
       gcsr_write, hg, and_not64_zero, update_self, Nat.mod_eq_of_lt hltg,
       LOONGARCH_CSR_SAVE_BASE, LOONGARCH_CSR_DMW_BASE])

/-- Guest state with a nonzero external CPU index, for the CPUID claim. -/
def envGuestCpuid : Env := { envGuest with cpu_index := 5 }

/-- C9 counterexample: in guest mode with cpu index 5, `csrrd(CPUID)` is
permitted and returns 5, but `csrxchg(CPUID, 0, 0)` trips the write-permission
check: it raises the hypervisor exception (so it does not return the read
value) and changes the state (`GSTAT.VM` is cleared). -/
theorem csrxchg_zero_mask_not_read_cpuid :
    (helper_csrrd_with_lvz envGuestCpuid LOONGARCH_CSR_CPUID).exc = none ∧
    (helper_csrrd_with_lvz envGuestCpuid LOONGARCH_CSR_CPUID).val = 5 ∧
    (helper_csrxchg_with_lvz envGuestCpuid 0 0 LOONGARCH_CSR_CPUID).exc
        = some EXCCODE_HVC ∧
    fieldEx (helper_csrxchg_with_lvz envGuestCpuid 0 0 LOONGARCH_CSR_CPUID).env.CSR_GSTAT
        0 1 = 0 ∧
    fieldEx envGuestCpuid.CSR_GSTAT 0 1 = 1 := by
  decide

set_option maxHeartbeats 1000000 in
/-- C9 amended: for the plain bank CSRs (no trap gate, no special read or
write path), `csrxchg(c, v, 0)` raises nothing, returns exactly `csrrd(c)`
and leaves the state bit-identical; and for any mask `rd`, the exchange
stores `(old & ~rd) | (rj & rd)`, as a subsequent read observes.  Likewise
the guest form `gcsrxchg` on those CSRs in guest mode: the zero-mask
exchange raises nothing, returns exactly `gcsrrd(c)` and leaves the state
bit-identical, and a general mask stores `(old & ~rd) | (rj & rd)` in the
guest bank.  For CSRs with a trapped or special path (CPUID, PGD, TVAL,
ESTAT, ASID, TCFG, TICLR, PRCFG*, timer CSRs for `csrxchg`; the
`GCFG`-gated ESTAT/TCFG for `gcsrxchg`) the law fails, as the
counterexample shows. -/
theorem csrxchg_zero_mask_plain (env : Env) (rj rd c : Nat)
    (hc : c ∈ plainCsrList)
    (hlt : (helper_csrrd_with_lvz env c).val < 2 ^ 64)
    (hltg : gcsr_read env c < 2 ^ 64) :
    ((helper_csrxchg_with_lvz env rj 0 c).env = env ∧
      (helper_csrxchg_with_lvz env rj 0 c).exc = none ∧
      (helper_csrxchg_with_lvz env rj 0 c).val
        = (helper_csrrd_with_lvz env c).val ∧
      (helper_csrrd_with_lvz env c).exc = none ∧
      (helper_csrxchg_with_lvz env rj rd c).exc = none ∧
      (csrrd_std (helper_csrxchg_with_lvz env rj rd c).env c).val
        = (helper_csrrd_with_lvz env c).val &&& not64 rd ||| (rj &&& rd)) ∧
    (is_guest_mode env = true →
      ((helper_gcsrxchg env rj 0 c).env = env ∧
        (helper_gcsrxchg env rj 0 c).exc = none ∧
        (helper_gcsrxchg env rj 0 c).val = (helper_gcsrrd env c).val ∧
        (helper_gcsrrd env c).exc = none ∧
        (helper_gcsrxchg env rj rd c).exc = none ∧
        gcsr_read (helper_gcsrxchg env rj rd c).env c
          = gcsr_read env c &&& not64 rd ||| (rj &&& rd))) := by
  refine ⟨?_, fun hg => gcsrxchg_plain_law env rj rd c hc hg hltg⟩
  have hW := check_plain env c true hc
  have hR := check_plain env c false hc
  simp only [plainCsrList, List.mem_cons, List.not_mem_nil, or_false] at hc
  rcases hc with rfl | rfl | rfl | rfl | rfl | rfl | rfl | rfl | rfl | rfl | rfl | rfl | rfl | rfl | rfl | rfl | rfl | rfl | rfl | rfl | rfl | rfl | rfl | rfl | rfl | rfl | rfl | rfl | rfl | rfl | rfl | rfl | rfl | rfl | rfl | rfl | rfl | rfl | rfl | rfl <;>
    (simp [helper_csrrd_with_lvz, csrrd_std, hR,
       LOONGARCH_CSR_SAVE_BASE, LOONGARCH_CSR_DMW_BASE] at hlt
     simp [helper_csrxchg_with_lvz, helper_csrrd_with_lvz, csrrd_std,
       helper_csrwr_with_lvz, csrwr_std, hW, hR,
       LOONGARCH_CSR_SAVE_BASE, LOONGARCH_CSR_DMW_BASE,
       and_not64_zero, update_self, Nat.mod_eq_of_lt hlt])

theorem csrxchg_zero_mask_plain_witness :
    (0x10 : Nat) ∈ plainCsrList ∧
    (helper_csrrd_with_lvz envGuest 0x10).val < 2 ^ 64 ∧
    gcsr_read envGuest 0x10 < 2 ^ 64 ∧
    is_guest_mode envGuest = true ∧
    ((helper_csrxchg_with_lvz envGuest 7 0 0x10).env = envGuest ∧
      (helper_csrxchg_with_lvz envGuest 7 0 0x10).exc = none ∧
      (helper_csrxchg_with_lvz envGuest 7 0 0x10).val
        = (helper_csrrd_with_lvz envGuest 0x10).val ∧
      (helper_csrrd_with_lvz envGuest 0x10).exc = none ∧
      (helper_csrxchg_with_lvz envGuest 7 3 0x10).exc = none ∧
      (csrrd_std (helper_csrxchg_with_lvz envGuest 7 3 0x10).env 0x10).val
        = (helper_csrrd_with_lvz envGuest 0x10).val &&& not64 3 ||| (7 &&& 3)) ∧
    ((helper_gcsrxchg envGuest 7 0 0x10).env = envGuest ∧
      (helper_gcsrxchg envGuest 7 0 0x10).exc = none ∧
      (helper_gcsrxchg envGuest 7 0 0x10).val
        = (helper_gcsrrd envGuest 0x10).val ∧
      (helper_gcsrrd envGuest 0x10).exc = none ∧
      (helper_gcsrxchg envGuest 7 3 0x10).exc = none ∧
      gcsr_read (helper_gcsrxchg envGuest 7 3 0x10).env 0x10
        = gcsr_read envGuest 0x10 &&& not64 3 ||| (7 &&& 3)) :=
  ⟨by decide, by decide, by decide, by decide,
    (csrxchg_zero_mask_plain envGuest 7 3 0x10 (by decide) (by decide)
        (by decide)).1,
    (csrxchg_zero_mask_plain envGuest 7 3 0x10 (by decide) (by decide)
        (by decide)).2 (by decide)⟩

set_option maxHeartbeats 4000000 in
/-- C7 (amended with `TLBRERA.ISTLBR = 0`): for an in-bounds effective
`TLBIDX.INDEX` with `NE = 0` and no pending TLB refill, `tlbwr` followed by
`tlbrd` in the same mode reproduces in the effective CSRs the `TLBEHI` VPPN
(bits 13..47 or 13..31, the rest being reserved-masked), `TLBELO0`,
`TLBELO1` exactly, and leaves the effective ASID field as it was. -/
theorem tlbwr_tlbrd_roundtrip (env : Env)
    (hidx : fieldEx (get_effective_csr_tlbidx env) 0 12 < LOONGARCH_TLB_MAX)
    (histlbr : fieldEx env.CSR_TLBRERA 0 1 = 0)
    (hne : fieldEx (get_effective_csr_tlbidx env) 31 1 = 0) :
    get_effective_csr_tlbehi (helper_tlbrd (helper_tlbwr env))
        = fieldEx (get_effective_csr_tlbehi env) 13
            (if is_la64 env then 35 else 19) * 2 ^ 13 ∧
    get_effective_csr_tlbelo0 (helper_tlbrd (helper_tlbwr env))
        = get_effective_csr_tlbelo0 env ∧
    get_effective_csr_tlbelo1 (helper_tlbrd (helper_tlbwr env))
        = get_effective_csr_tlbelo1 env ∧
    fieldEx (get_effective_csr_asid (helper_tlbrd (helper_tlbwr env))) 0 10
        = fieldEx (get_effective_csr_asid env) 0 10 := by
  by_cases hlvz : fieldEx (env.cpucfg 2) 10 1 = 0
  · by_cases hla : fieldEx (env.cpucfg 1) 0 2 = 2 <;>
      by_cases hstlb : LOONGARCH_STLB <= fieldEx env.CSR_TLBIDX 0 12 <;>
        simp_all [helper_tlbwr, helper_tlbrd, fill_tlb_entry,
          invalidate_tlb_entry, setTlbEntry, tlb_entry_matches_guest,
          get_current_guest_id, is_guest_mode, has_lvz_capability, is_la64,
          get_effective_csr_tlbidx, get_effective_csr_tlbehi,
          get_effective_csr_tlbelo0, get_effective_csr_tlbelo1,
          get_effective_csr_asid, set_effective_csr_tlbidx,
          set_effective_csr_tlbehi, set_effective_csr_tlbelo0,
          set_effective_csr_tlbelo1, set_effective_csr_asid]
  · by_cases hvm : fieldEx env.CSR_GSTAT 0 1 = 0
    · by_cases hla : fieldEx (env.cpucfg 1) 0 2 = 2 <;>
        by_cases hstlb : LOONGARCH_STLB <= fieldEx env.CSR_TLBIDX 0 12 <;>
          simp_all [helper_tlbwr, helper_tlbrd, fill_tlb_entry,
            invalidate_tlb_entry, setTlbEntry, tlb_entry_matches_guest,
            get_current_guest_id, is_guest_mode, has_lvz_capability, is_la64,
            get_effective_csr_tlbidx, get_effective_csr_tlbehi,
            get_effective_csr_tlbelo0, get_effective_csr_tlbelo1,
            get_effective_csr_asid, set_effective_csr_tlbidx,
            set_effective_csr_tlbehi, set_effective_csr_tlbelo0,
            set_effective_csr_tlbelo1, set_effective_csr_asid]
    · by_cases hla : fieldEx (env.cpucfg 1) 0 2 = 2 <;>
        by_cases hstlb : LOONGARCH_STLB <= fieldEx env.GCSR_TLBIDX 0 12 <;>
          (simp [get_effective_csr_tlbidx, is_guest_mode,
             has_lvz_capability, hlvz, hvm] at hne
           refine ⟨?_, ?_, ?_, ?_⟩ <;>
             simp [helper_tlbwr, helper_tlbrd, fill_tlb_entry,
               invalidate_tlb_entry, setTlbEntry, tlb_entry_matches_guest,
               get_current_guest_id, get_guest_id, is_guest_mode,
               has_lvz_capability, is_la64, get_effective_csr_tlbidx, get_effective_csr_tlbehi,
               get_effective_csr_tlbelo0, get_effective_csr_tlbelo1,
               get_effective_csr_asid, set_effective_csr_tlbidx,
               set_effective_csr_tlbehi, set_effective_csr_tlbelo0,
               set_effective_csr_tlbelo1, set_effective_csr_asid,
               hlvz, hvm, hla, hstlb, hne, histlbr])

/-- Host-mode state with a pending TLB refill (`TLBRERA.ISTLBR = 1`). -/
def envIstlbr : Env := { CSR_TLBRERA := 1, CSR_TLBEHI := 8192 }

/-- C7 counterexample: with `TLBRERA.ISTLBR = 1` (and `TLBIDX.INDEX = 0 <
2112`, `NE = 0`), `tlbwr` fills from the TLB-refill CSRs, so the following
`tlbrd` does not reproduce the effective `TLBEHI` (VPPN 1 is read back as
0). -/
theorem tlbwr_tlbrd_not_reproduce_under_istlbr :
    fieldEx (get_effective_csr_tlbidx envIstlbr) 0 12 < LOONGARCH_TLB_MAX ∧
    fieldEx (get_effective_csr_tlbidx envIstlbr) 31 1 = 0 ∧
    get_effective_csr_tlbehi (helper_tlbrd (helper_tlbwr envIstlbr))
        ≠ fieldEx (get_effective_csr_tlbehi envIstlbr) 13
            (if is_la64 envIstlbr then 35 else 19) * 2 ^ 13 := by
  decide

/-- Host-mode state for the round-trip witness: index 3, `VPPN = 1`, ELO
words 77 and 88, ASID 5. -/
def envRoundtrip : Env :=
  { CSR_TLBIDX := 3, CSR_TLBEHI := 8192, CSR_TLBELO0 := 77,
    CSR_TLBELO1 := 88, CSR_ASID := 5 }

theorem tlbwr_tlbrd_roundtrip_witness :
    fieldEx (get_effective_csr_tlbidx envRoundtrip) 0 12 < LOONGARCH_TLB_MAX ∧
    fieldEx envRoundtrip.CSR_TLBRERA 0 1 = 0 ∧
    fieldEx (get_effective_csr_tlbidx envRoundtrip) 31 1 = 0 ∧
    (get_effective_csr_tlbehi (helper_tlbrd (helper_tlbwr envRoundtrip))
        = fieldEx (get_effective_csr_tlbehi envRoundtrip) 13
            (if is_la64 envRoundtrip then 35 else 19) * 2 ^ 13 ∧
      get_effective_csr_tlbelo0 (helper_tlbrd (helper_tlbwr envRoundtrip))
        = get_effective_csr_tlbelo0 envRoundtrip ∧
      get_effective_csr_tlbelo1 (helper_tlbrd (helper_tlbwr envRoundtrip))
        = get_effective_csr_tlbelo1 envRoundtrip ∧
      fieldEx (get_effective_csr_asid (helper_tlbrd (helper_tlbwr envRoundtrip)))
          0 10
        = fieldEx (get_effective_csr_asid envRoundtrip) 0 10) :=
  ⟨by decide, by decide, by decide,
    tlbwr_tlbrd_roundtrip envRoundtrip (by decide) (by decide) (by decide)⟩

/-- State with a pending TLB refill whose `TLBREHI.PS = 1` while the
effective `TLBIDX.PS` and `STLBPS.PS` are both 0. -/
def envFillIstlbr : Env := { CSR_TLBRERA := 1, CSR_TLBREHI := 1 }

/-- C8 counterexample: with `TLBRERA.ISTLBR = 1`, even though the effective
page size `TLBIDX.PS` equals `STLBPS.PS`, `tlbfill` draws its page size from
`TLBREHI.PS` and places the entry in the MTLB (index at least 2048, not of
the form `way * 256 + (VPN & 0xff)` with `way ≤ 7`). -/
theorem tlbfill_mtlb_despite_stlb_ps :
    fieldEx (get_effective_csr_tlbidx envFillIstlbr) 24 6
        = fieldEx envFillIstlbr.CSR_STLBPS 0 6 ∧
    2048 ≤ tlbfill_index envFillIstlbr 0 := by
  decide

/-- C8 (amended with `TLBRERA.ISTLBR = 0`): when the effective `TLBIDX.PS`
equals `STLBPS.PS`, `tlbfill` writes the new entry at `way * 256 +
(VPN & 0xff)` for some way below 8, with the VPN taken from the effective
`TLBEHI`; for any other page size it writes at an MTLB index in
`[2048, 2111]`.  Only the chosen index is written, and the new entry is
enabled. -/
theorem tlbfill_index_placement (env : Env) (rand : Nat)
    (histlbr : fieldEx env.CSR_TLBRERA 0 1 = 0) :
    (fieldEx (get_effective_csr_tlbidx env) 24 6 = fieldEx env.CSR_STLBPS 0 6 →
      ∃ way, way < 8 ∧
        tlbfill_index env rand
          = way * 256 +
            get_effective_csr_tlbehi env / 2 ^ 13 * 2 ^ 13
              / 2 ^ (fieldEx env.CSR_STLBPS 0 6 + 1) % 256) ∧
    (fieldEx (get_effective_csr_tlbidx env) 24 6 ≠ fieldEx env.CSR_STLBPS 0 6 →
      LOONGARCH_STLB ≤ tlbfill_index env rand ∧
      tlbfill_index env rand < LOONGARCH_TLB_MAX) ∧
    (∀ j, j ≠ tlbfill_index env rand →
      (helper_tlbfill env rand).tlb j = env.tlb j) ∧
    fieldEx ((helper_tlbfill env rand).tlb (tlbfill_index env rand)).tlb_misc
        0 1 = 1 := by
  refine ⟨?_, ?_, ?_, ?_⟩
  · intro hps
    refine ⟨rand % 8, Nat.mod_lt _ (by omega), ?_⟩
    simp [tlbfill_index, get_random_tlb, histlbr, hps]
  · intro hps
    have hval : tlbfill_index env rand = rand % 64 + 2048 := by
      simp [tlbfill_index, get_random_tlb, histlbr, hps, LOONGARCH_STLB,
        LOONGARCH_TLB_MAX]
    simp only [hval, LOONGARCH_STLB, LOONGARCH_TLB_MAX]
    omega
  · intro j hj
    simp [helper_tlbfill, fill_tlb_entry, invalidate_tlb_entry, setTlbEntry, hj]
  · cases hlvzB : has_lvz_capability env <;>
      simp [helper_tlbfill, fill_tlb_entry, invalidate_tlb_entry, setTlbEntry,
        hlvzB]

theorem tlbfill_index_placement_witness :
    fieldEx envRoundtrip.CSR_TLBRERA 0 1 = 0 ∧
    fieldEx (get_effective_csr_tlbidx envRoundtrip) 24 6
        = fieldEx envRoundtrip.CSR_STLBPS 0 6 ∧
    (∃ way, way < 8 ∧
      tlbfill_index envRoundtrip 9
        = way * 256 +
          get_effective_csr_tlbehi envRoundtrip / 2 ^ 13 * 2 ^ 13
            / 2 ^ (fieldEx envRoundtrip.CSR_STLBPS 0 6 + 1) % 256) :=
  ⟨by decide, by decide,
    (tlbfill_index_placement envRoundtrip 9 (by decide)).1 (by decide)⟩

/-- Host-mode state whose effective `TLBIDX.INDEX` is 2112 (one past the
last TLB slot) with `NE = 0` and no pending refill. -/
def envOob : Env := { CSR_TLBIDX := 2112 }

/-- C10: at effective index 2112 with `NE = 0`, `helper_tlbwr` skips only the
`invalidate_tlb_entry` call, but still executes the fill step, writing the
entry at index 2112 — one past the end of the 2112-entry C array (an
out-of-bounds write in the source); the claim (and `helper_gtlbwr`'s explicit
bound check) requires the TLB array to be left untouched. -/
theorem tlbwr_oob_fill_executed :
    fieldEx (get_effective_csr_tlbidx envOob) 0 12 = 2112 ∧
    fieldEx (get_effective_csr_tlbidx envOob) 31 1 = 0 ∧
    fieldEx envOob.CSR_TLBRERA 0 1 = 0 ∧
    (helper_tlbwr envOob).tlb 2112 ≠ envOob.tlb 2112 := by
  decide

@[simp] theorem set_effective_csr_tlbidx_tlb (env : Env) (v : Nat) :
    (set_effective_csr_tlbidx env v).tlb = env.tlb := by
  unfold set_effective_csr_tlbidx
  split <;> rfl

@[simp] theorem set_effective_csr_tlbehi_tlb (env : Env) (v : Nat) :
    (set_effective_csr_tlbehi env v).tlb = env.tlb := by
  unfold set_effective_csr_tlbehi
  split <;> rfl

@[simp] theorem set_effective_csr_tlbelo0_tlb (env : Env) (v : Nat) :
    (set_effective_csr_tlbelo0 env v).tlb = env.tlb := by
  unfold set_effective_csr_tlbelo0
  split <;> rfl

@[simp] theorem set_effective_csr_tlbelo1_tlb (env : Env) (v : Nat) :
    (set_effective_csr_tlbelo1 env v).tlb = env.tlb := by
  unfold set_effective_csr_tlbelo1
  split <;> rfl

@[simp] theorem set_effective_csr_asid_tlb (env : Env) (v : Nat) :
    (set_effective_csr_asid env v).tlb = env.tlb := by
  unfold set_effective_csr_asid
  split <;> rfl

theorem tlbclr_step_only (env : Env) (ca : Nat) (t : Nat → TLBEntry)
    (j k : Nat) (hk : k ≠ j) : tlbclr_step env ca t j k = t k := by
  unfold tlbclr_step
  split
  · rfl
  · split
    · simp [hk]
    · rfl

theorem tlbclr_step_skip (env : Env) (ca : Nat) (t : Nat → TLBEntry) (j : Nat)
    (h : tlb_entry_matches_guest env (t j) = false) :
    tlbclr_step env ca t j = t := by
  unfold tlbclr_step
  simp [h]

theorem tlbflush_step_only (env : Env) (t : Nat → TLBEntry) (j k : Nat)
    (hk : k ≠ j) : tlbflush_step env t j k = t k := by
  unfold tlbflush_step
  split
  · simp [hk]
  · rfl

theorem tlbflush_step_skip (env : Env) (t : Nat → TLBEntry) (j : Nat)
    (h : tlb_entry_matches_guest env (t j) = false) :
    tlbflush_step env t j = t := by
  unfold tlbflush_step
  simp [h]

theorem invtlb_all_g_step_only (env : Env) (g : Nat) (t : Nat → TLBEntry)
    (j k : Nat) (hk : k ≠ j) : invtlb_all_g_step env g t j k = t k := by
  unfold invtlb_all_g_step
  split
  · simp [hk]
  · rfl

theorem invtlb_all_g_step_skip (env : Env) (g : Nat) (t : Nat → TLBEntry)
    (j : Nat) (h : tlb_entry_matches_guest env (t j) = false) :
    invtlb_all_g_step env g t j = t := by
  unfold invtlb_all_g_step
  simp [h]

theorem invtlb_all_asid_step_only (env : Env) (asid : Nat)
    (t : Nat → TLBEntry) (j k : Nat) (hk : k ≠ j) :
    invtlb_all_asid_step env asid t j k = t k := by
  unfold invtlb_all_asid_step
  split
  · simp [hk]
  · rfl

theorem invtlb_all_asid_step_skip (env : Env) (asid : Nat)
    (t : Nat → TLBEntry) (j : Nat)
    (h : tlb_entry_matches_guest env (t j) = false) :
    invtlb_all_asid_step env asid t j = t := by
  unfold invtlb_all_asid_step
  simp [h]

theorem invtlb_page_asid_step_only (env : Env) (asid addr : Nat)
    (t : Nat → TLBEntry) (j k : Nat) (hk : k ≠ j) :
    invtlb_page_asid_step env asid addr t j k = t k := by
  unfold invtlb_page_asid_step
  simp only [apply_ite (fun g : Nat → TLBEntry => g k)]
  repeat' split
  all_goals first | rfl | simp [hk]

theorem invtlb_page_asid_step_skip (env : Env) (asid addr : Nat)
    (t : Nat → TLBEntry) (j : Nat)
    (h : tlb_entry_matches_guest env (t j) = false) :
    invtlb_page_asid_step env asid addr t j = t := by
  unfold invtlb_page_asid_step
  simp [h]

theorem invtlb_page_asid_or_g_step_only (env : Env) (asid addr : Nat)
    (t : Nat → TLBEntry) (j k : Nat) (hk : k ≠ j) :
    invtlb_page_asid_or_g_step env asid addr t j k = t k := by
  unfold invtlb_page_asid_or_g_step
  simp only [apply_ite (fun g : Nat → TLBEntry => g k)]
  repeat' split
  all_goals first | rfl | simp [hk]

theorem invtlb_page_asid_or_g_step_skip (env : Env) (asid addr : Nat)
    (t : Nat → TLBEntry) (j : Nat)
    (h : tlb_entry_matches_guest env (t j) = false) :
    invtlb_page_asid_or_g_step env asid addr t j = t := by
  unfold invtlb_page_asid_or_g_step
  simp [h]

/-- A fold of per-entry steps never changes an entry the step both localizes
to its own index and skips when the GID filter rejects it. -/
theorem foldl_gid_frame {α : Type} (env : Env) (i : Nat)
    (step : (Nat → TLBEntry) → Nat → Nat → TLBEntry) (jfun : α → Nat)
    (honly : ∀ t j k, k ≠ j → step t j k = t k)
    (hskip : ∀ t j, tlb_entry_matches_guest env (t j) = false → step t j = t)
    (hmis : tlb_entry_matches_guest env (env.tlb i) = false) :
    ∀ (l : List α) (t : Nat → TLBEntry), t i = env.tlb i →
      (l.foldl (fun t a => step t (jfun a)) t) i = env.tlb i := by
  intro l
  induction l with
  | nil => intro t ht; exact ht
  | cons a l ih =>
    intro t ht
    refine ih _ ?_
    show step t (jfun a) i = env.tlb i
    by_cases hj : jfun a = i
    · rw [hskip t (jfun a) (by rw [hj, ht]; exact hmis), ht]
    · rw [honly t (jfun a) i (fun hc => hj hc.symm), ht]

/-- `foldl_gid_frame` specialised to the identity index map, so that the
conclusion matches the full-TLB loops of the `invtlb` helpers verbatim. -/
theorem foldl_gid_frame_id (env : Env) (i : Nat)
    (step : (Nat → TLBEntry) → Nat → Nat → TLBEntry)
    (honly : ∀ t j k, k ≠ j → step t j k = t k)
    (hskip : ∀ t j, tlb_entry_matches_guest env (t j) = false → step t j = t)
    (hmis : tlb_entry_matches_guest env (env.tlb i) = false) :
    ∀ (l : List Nat) (t : Nat → TLBEntry), t i = env.tlb i →
      (l.foldl step t) i = env.tlb i := by
  intro l
  induction l with
  | nil => intro t ht; exact ht
  | cons a l ih =>
    intro t ht
    refine ih _ ?_
    show step t a i = env.tlb i
    by_cases hj : a = i
    · rw [hskip t a (by rw [hj, ht]; exact hmis), ht]
    · rw [honly t a i (fun hc => hj hc.symm), ht]

theorem invtlb_all_frame (env : Env) (i : Nat)
    (hmis : tlb_entry_matches_guest env (env.tlb i) = false) :
    (helper_invtlb_all env).tlb i = env.tlb i := by
  have hfold := foldl_gid_frame_id env i (fun t j => tlbflush_step env t j)
    (tlbflush_step_only env) (tlbflush_step_skip env) hmis
    (List.range LOONGARCH_TLB_MAX) env.tlb rfl
  simp only [helper_invtlb_all]
  exact hfold

theorem invtlb_all_g_frame (env : Env) (g i : Nat)
    (hmis : tlb_entry_matches_guest env (env.tlb i) = false) :
    (helper_invtlb_all_g env g).tlb i = env.tlb i := by
  have hfold := foldl_gid_frame_id env i (invtlb_all_g_step env g)
    (invtlb_all_g_step_only env g) (invtlb_all_g_step_skip env g) hmis
    (List.range LOONGARCH_TLB_MAX) env.tlb rfl
  simp only [helper_invtlb_all_g]
  exact hfold

theorem invtlb_all_asid_frame (env : Env) (info i : Nat)
    (hmis : tlb_entry_matches_guest env (env.tlb i) = false) :
    (helper_invtlb_all_asid env info).tlb i = env.tlb i := by
  have hfold := foldl_gid_frame_id env i (invtlb_all_asid_step env (info % 1024))
    (invtlb_all_asid_step_only env _) (invtlb_all_asid_step_skip env _) hmis
    (List.range LOONGARCH_TLB_MAX) env.tlb rfl
  simp only [helper_invtlb_all_asid]
  exact hfold

theorem invtlb_page_asid_frame (env : Env) (info addr i : Nat)
    (hmis : tlb_entry_matches_guest env (env.tlb i) = false) :
    (helper_invtlb_page_asid env info addr).tlb i = env.tlb i := by
  have hfold := foldl_gid_frame_id env i
    (invtlb_page_asid_step env (info % 1024) addr)
    (invtlb_page_asid_step_only env _ addr)
    (invtlb_page_asid_step_skip env _ addr) hmis
    (List.range LOONGARCH_TLB_MAX) env.tlb rfl
  simp only [helper_invtlb_page_asid]
  exact hfold

theorem invtlb_page_asid_or_g_frame (env : Env) (info addr i : Nat)
    (hmis : tlb_entry_matches_guest env (env.tlb i) = false) :
    (helper_invtlb_page_asid_or_g env info addr).tlb i = env.tlb i := by
  have hfold := foldl_gid_frame_id env i
    (invtlb_page_asid_or_g_step env (info % 1024) addr)
    (invtlb_page_asid_or_g_step_only env _ addr)
    (invtlb_page_asid_or_g_step_skip env _ addr) hmis
    (List.range LOONGARCH_TLB_MAX) env.tlb rfl
  simp only [helper_invtlb_page_asid_or_g]
  exact hfold

/-- C1 counterexample: in guest mode with GID 3, `tlbwr` at an index holding
an entry tagged GID 0 overwrites that entry (there is no GID check on the
`tlbwr`/`tlbfill` fill path). -/
def envGidVictim : Env :=
  { envGuest with tlb := fun j => if j = 0 then { tlb_misc := 1 } else {} }

theorem tlbwr_overwrites_other_gid :
    is_guest_mode envGidVictim = true ∧
    get_current_guest_id envGidVictim = 3 ∧
    fieldEx (envGidVictim.tlb 0).tlb_misc 54 8 = 0 ∧
    (helper_tlbwr envGidVictim).tlb 0 ≠ envGidVictim.tlb 0 := by
  decide

/-- C1 amended: in guest mode, `tlbsrch` and `tlbrd` never modify the TLB
array, and `tlbclr`, `tlbflush` and every `invtlb_*` variant leave each
entry whose GID tag differs from the current GID bit-identical; `tlbwr` and
`tlbfill`, however, overwrite the entry at their target index regardless of
its GID tag (see the counterexample). -/
theorem tlb_helpers_gid_frame (env : Env) (g info addr i : Nat)
    (hguest : is_guest_mode env = true)
    (hmismatch : fieldEx (env.tlb i).tlb_misc 54 8 ≠ get_current_guest_id env) :
    (helper_tlbsrch env).tlb = env.tlb ∧
    (helper_tlbrd env).tlb = env.tlb ∧
    (helper_tlbclr env).tlb i = env.tlb i ∧
    (helper_tlbflush env).tlb i = env.tlb i ∧
    (helper_invtlb_all env).tlb i = env.tlb i ∧
    (helper_invtlb_all_g env g).tlb i = env.tlb i ∧
    (helper_invtlb_all_asid env info).tlb i = env.tlb i ∧
    (helper_invtlb_page_asid env info addr).tlb i = env.tlb i ∧
    (helper_invtlb_page_asid_or_g env info addr).tlb i = env.tlb i := by
  have hlvz : has_lvz_capability env = true := by
    have h2 := hguest
    simp only [is_guest_mode, Bool.and_eq_true] at h2
    exact h2.1
  have hmis : tlb_entry_matches_guest env (env.tlb i) = false := by
    unfold tlb_entry_matches_guest
    rw [hlvz]
    simp [hmismatch]
  refine ⟨?_, ?_, ?_, ?_, ?_, ?_, ?_, ?_, ?_⟩
  · cases h1 : fieldEx env.CSR_TLBRERA 0 1 != 0
    · cases h2 : loongarch_tlb_search_guest env (get_effective_csr_tlbehi env) <;>
        simp [helper_tlbsrch, h1, h2]
    · cases h2 : loongarch_tlb_search_guest env env.CSR_TLBREHI <;>
        simp [helper_tlbsrch, h1, h2]
  · simp [helper_tlbrd, apply_ite Env.tlb]
  · by_cases h1 : fieldEx (get_effective_csr_tlbidx env) 0 12 < LOONGARCH_STLB
    · have hfold := foldl_gid_frame env i
        (tlbclr_step env (fieldEx (get_effective_csr_asid env) 0 10))
        (fun k => k * 256 + fieldEx (get_effective_csr_tlbidx env) 0 12 % 256)
        (tlbclr_step_only env _) (tlbclr_step_skip env _) hmis
        (List.range 8) env.tlb rfl
      simp [helper_tlbclr, h1, hfold]
    · by_cases h2 : fieldEx (get_effective_csr_tlbidx env) 0 12
          < LOONGARCH_TLB_MAX
      · have hfold := foldl_gid_frame env i
          (tlbclr_step env (fieldEx (get_effective_csr_asid env) 0 10))
          (fun k => LOONGARCH_STLB + k)
          (tlbclr_step_only env _) (tlbclr_step_skip env _) hmis
          (List.range 64) env.tlb rfl
        simp [helper_tlbclr, h1, h2, hfold]
      · simp [helper_tlbclr, h1, h2]
  · by_cases h1 : fieldEx (get_effective_csr_tlbidx env) 0 12 < LOONGARCH_STLB
    · have hfold := foldl_gid_frame env i (tlbflush_step env)
        (fun k => k * 256 + fieldEx (get_effective_csr_tlbidx env) 0 12 % 256)
        (tlbflush_step_only env) (tlbflush_step_skip env) hmis
        (List.range 8) env.tlb rfl
      simp [helper_tlbflush, h1, hfold]
    · by_cases h2 : fieldEx (get_effective_csr_tlbidx env) 0 12
          < LOONGARCH_TLB_MAX
      · have hfold := foldl_gid_frame env i (tlbflush_step env)
          (fun k => LOONGARCH_STLB + k)
          (tlbflush_step_only env) (tlbflush_step_skip env) hmis
          (List.range 64) env.tlb rfl
        simp [helper_tlbflush, h1, h2, hfold]
      · simp [helper_tlbflush, h1, h2]
  · exact invtlb_all_frame env i hmis
  · exact invtlb_all_g_frame env g i hmis
  · exact invtlb_all_asid_frame env info i hmis
  · exact invtlb_page_asid_frame env info addr i hmis
  · exact invtlb_page_asid_or_g_frame env info addr i hmis

theorem tlb_helpers_gid_frame_witness :
    is_guest_mode envGidVictim = true ∧
    fieldEx (envGidVictim.tlb 0).tlb_misc 54 8
        ≠ get_current_guest_id envGidVictim ∧
    ((helper_tlbsrch envGidVictim).tlb = envGidVictim.tlb ∧
      (helper_tlbrd envGidVictim).tlb = envGidVictim.tlb ∧
      (helper_tlbclr envGidVictim).tlb 0 = envGidVictim.tlb 0 ∧
      (helper_tlbflush envGidVictim).tlb 0 = envGidVictim.tlb 0 ∧
      (helper_invtlb_all envGidVictim).tlb 0 = envGidVictim.tlb 0 ∧
      (helper_invtlb_all_g envGidVictim 1).tlb 0 = envGidVictim.tlb 0 ∧
      (helper_invtlb_all_asid envGidVictim 0).tlb 0 = envGidVictim.tlb 0 ∧
      (helper_invtlb_page_asid envGidVictim 0 0).tlb 0 = envGidVictim.tlb 0 ∧
      (helper_invtlb_page_asid_or_g envGidVictim 0 0).tlb 0
        = envGidVictim.tlb 0) :=
  ⟨by decide, by decide,
    tlb_helpers_gid_frame envGidVictim 1 0 0 0 (by decide) (by decide)⟩

end QemuLvz
